import Mathlib

/-!
Configuration page script of the Mikrotik display (`src/web_interface.h`).

The file `src/web_interface.h` holds one page: markup followed by a script
(lines 604-840).  This development embeds the script.

* `JSValue` models the values a parsed JSON body can hold, together with the
  language operations the script applies to them (`if (v)`, `v + '%'`,
  template literals, `a == b`, `v.length > 0`, `parseInt`).
* `Page` is the state the script reads and writes: the properties of the
  elements it addresses by id, its variable `currentTheme`, the `theme` entry of
  `localStorage`, and the trace of its outward effects (requests issued, blocking
  alerts raised, labels written to the error console).
* Every event handler and every promise continuation of the script is one
  function on `Page`.  A continuation that can throw returns a `Run`, which keeps
  the state reached at the point of the throw, because a thrown exception does not
  undo earlier assignments.

Modelling choices, stated once:

* A Number is a binary64 value.  A number of a response is given by its decimal
  numeral (`JSNumber`) and stands for the binary64 value nearest to it;
  truthiness, comparison and conversion to a string all go through that value,
  and the string of a number is the shortest numeral that reads back as it
  (`Number::toString`).
* The value of an input element is the string the element holds after the value
  sanitisation of its type (HTML standard): a text input drops line breaks, a
  number input blanks a string that is not a valid floating-point number, and the
  range input `backlightSlider` (`min="0" max="100"`, step 1) clamps and rounds.
* Markup assigned through `innerHTML` is kept as the markup string, so an
  option records whether its content was assigned as text or as markup.  The
  text and the label of an option are determined for assigned text and for
  markup the parser reads as plain text (`Content.textContent`,
  `SelectOption.label`); markup with a tag or a character reference is not
  parsed.  The `selected` field of an option is the flag the script set; the
  rule that a single select keeps at most one option selected is not modelled.
* Property lookup is own-property lookup, which is what the language does for
  the property names this script uses on values parsed from JSON.
-/

namespace WebInterface

/-! ## Numbers -/
/-- A binary64 value: not a number, an infinity, or the finite value
`± mant * 2 ^ exp`.  Finite values are kept in one form: zero has `mant = 0` and
`exp = 0`, a normal value has `2^52 ≤ mant < 2^53` and `-1074 ≤ exp ≤ 971`, a
subnormal value has `mant < 2^52` and `exp = -1074`. -/
inductive Binary64 where
  | nan
  | inf (neg : Bool)
  | fin (neg : Bool) (mant : Nat) (exp : Int)
  deriving Repr, DecidableEq, Inhabited

/-- A Number as a decimal numeral `± mant * 10 ^ exp`, the way JSON text and
numeric literals write it.  The Number it stands for is the binary64 value
nearest to the numeral (`JSNumber.toBinary64`); every operation on numbers goes
through that value. -/
structure JSNumber where
  neg : Bool
  mant : Nat
  exp : Int
  deriving Repr, DecidableEq, Inhabited

/-- The numeral of a natural number. -/
def JSNumber.ofNat (n : Nat) : JSNumber := ⟨false, n, 0⟩

/-- The numeral of an integer. -/
def JSNumber.ofInt (n : Int) : JSNumber := ⟨decide (n < 0), n.natAbs, 0⟩

instance (n : Nat) : OfNat JSNumber n := ⟨JSNumber.ofNat n⟩

instance : Neg JSNumber := ⟨fun d => { d with neg := !d.neg }⟩

/-- Number of binary digits of `n`, computed with `fuel` halvings. -/
def bitLengthAux : Nat → Nat → Nat
  | 0, _ => 0
  | fuel + 1, n => if n = 0 then 0 else bitLengthAux fuel (n / 2) + 1

/-- Number of binary digits of `n`: zero for 0, otherwise `⌊log2 n⌋ + 1`. -/
def bitLength (n : Nat) : Nat := bitLengthAux n n

/-- Whether `a / b ≥ 2 ^ l`. -/
def geTwoPow (a b : Nat) (l : Int) : Bool :=
  if 0 ≤ l then decide (b * 2 ^ l.toNat ≤ a) else decide (b ≤ a * 2 ^ (-l).toNat)

/-- The quotient `a / b` rounded to the nearest integer, a tie going to the
even one. -/
def roundHalfEven (a b : Nat) : Nat :=
  if b < 2 * (a % b) then a / b + 1
  else if 2 * (a % b) = b then a / b + (a / b) % 2
  else a / b

/-- The binary64 value nearest to `± a / b` (`b > 0`), ties to the even
significand; a magnitude of `2^1024 - 2^970` or more gives an infinity. -/
def roundRatio (neg : Bool) (a b : Nat) : Binary64 :=
  if a = 0 then .fin neg 0 0
  else
    let l0 : Int := (bitLength a : Int) - (bitLength b : Int)
    let fl : Int := if geTwoPow a b l0 then l0 else l0 - 1
    let q : Int := max (fl - 52) (-1074)
    let num : Nat := if 0 ≤ q then a else a * 2 ^ (-q).toNat
    let den : Nat := if 0 ≤ q then b * 2 ^ q.toNat else b
    let m := roundHalfEven num den
    if m = 0 then .fin neg 0 0
    else if m = 2 ^ 53 then (if 971 < q + 1 then .inf neg else .fin neg (2 ^ 52) (q + 1))
    else if 971 < q then .inf neg
    else .fin neg m q

/-- The Number a numeral stands for.  Numerals of 10^310 and more are beyond
every finite binary64 value, numerals below 10^-330 are below half the smallest
one. -/
def JSNumber.toBinary64 (d : JSNumber) : Binary64 :=
  if d.mant = 0 then .fin d.neg 0 0
  else if 310 < ((toString d.mant).length : Int) + d.exp then .inf d.neg
  else if ((toString d.mant).length : Int) + d.exp < -330 then .fin d.neg 0 0
  else if 0 ≤ d.exp then roundRatio d.neg (d.mant * 10 ^ d.exp.toNat) 1
  else roundRatio d.neg d.mant (10 ^ (-d.exp).toNat)

namespace Binary64

/-- Whether the value is `+0` or `-0`. -/
def isZero : Binary64 → Bool
  | fin _ 0 _ => true
  | _ => false

/-- The comparison `x > 0`. -/
def positive : Binary64 → Bool
  | nan => false
  | inf neg => !neg
  | fin neg m _ => !neg && m != 0

/-- Equality of Numbers: `NaN` equals nothing, the two zeros are equal. -/
def eq : Binary64 → Binary64 → Bool
  | nan, _ => false
  | _, nan => false
  | fin _ 0 _, fin _ 0 _ => true
  | x, y => x == y

/-- Whether `a / b ≥ 10 ^ n`. -/
def geTenPow (a b : Nat) (n : Int) : Bool :=
  if 0 ≤ n then decide (b * 10 ^ n.toNat ≤ a) else decide (b ≤ a * 10 ^ (-n).toNat)

/-- Moves an estimate `n` until `10 ^ (n - 1) ≤ a / b < 10 ^ n`. -/
def adjustDigits (a b : Nat) : Nat → Int → Int
  | 0, n => n
  | fuel + 1, n =>
    if geTenPow a b n then adjustDigits a b fuel (n + 1)
    else if geTenPow a b (n - 1) then n
    else adjustDigits a b fuel (n - 1)

/-- The `n` with `10 ^ (n - 1) ≤ a / b < 10 ^ n`, for `a, b > 0`. -/
def integerDigits (a b : Nat) : Int :=
  adjustDigits a b 8 ((((bitLength a : Int) - (bitLength b : Int)) * 30103) / 100000)

/-- The digits `s` (with `k` digits) of the shortest numeral `s * 10 ^ (n - k)`
that stands for the value `mant * 2 ^ exp`, tried for `k = 17 - fuel + 1 ...`;
among two numerals of the same length the nearer one, or the even one. -/
def shortestDigitsAux (x : Binary64) (a b : Nat) (n : Int) : Nat → Nat → Nat
  | 0, _ => 0
  | fuel + 1, k =>
    let j : Int := n - k
    let num : Nat := if 0 ≤ j then a else a * 10 ^ (-j).toNat
    let den : Nat := if 0 ≤ j then b * 10 ^ j.toNat else b
    let lo := num / den
    let hi := lo + 1
    let okLo : Bool := decide (10 ^ (k - 1) ≤ lo) && decide (lo < 10 ^ k) &&
      decide (JSNumber.toBinary64 ⟨false, lo, j⟩ = x)
    let okHi : Bool := decide (10 ^ (k - 1) ≤ hi) && decide (hi < 10 ^ k) &&
      decide (JSNumber.toBinary64 ⟨false, hi, j⟩ = x)
    if okLo && okHi then
      (if 2 * (num % den) < den then lo
       else if den < 2 * (num % den) then hi
       else if lo % 2 = 0 then lo else hi)
    else if okLo then lo
    else if okHi then hi
    else shortestDigitsAux x a b n fuel (k + 1)

/-- The text of `Number::toString` from its three quantities: the digits `s`,
their count `k`, and the position `n` of the decimal point. -/
def formatDigits (s : String) (k : Nat) (n : Int) : String :=
  if (k : Int) ≤ n ∧ n ≤ 21 then s ++ String.mk (List.replicate (n - k).toNat '0')
  else if 0 < n ∧ n ≤ 21 then
    String.mk (s.toList.take n.toNat) ++ "." ++ String.mk (s.toList.drop n.toNat)
  else if -6 < n ∧ n ≤ 0 then "0." ++ String.mk (List.replicate (-n).toNat '0') ++ s
  else
    let e : Int := n - 1
    let expText := (if e < 0 then "-" else "+") ++ toString e.natAbs
    if k = 1 then s ++ "e" ++ expText
    else String.mk (s.toList.take 1) ++ "." ++ String.mk (s.toList.drop 1) ++ "e" ++ expText

/-- The text of a positive finite value `mant * 2 ^ exp`. -/
def positiveToString (mant : Nat) (exp : Int) : String :=
  let a : Nat := if 0 ≤ exp then mant * 2 ^ exp.toNat else mant
  let b : Nat := if 0 ≤ exp then 1 else 2 ^ (-exp).toNat
  let n := integerDigits a b
  if JSNumber.toBinary64 ⟨false, 1, n⟩ = .fin false mant exp then formatDigits "1" 1 (n + 1)
  else
    let s := toString (shortestDigitsAux (.fin false mant exp) a b n 17 1)
    formatDigits s s.length n

/-- `Number::toString`: the shortest decimal text that reads back as the
value. -/
def text : Binary64 → String
  | nan => "NaN"
  | inf false => "Infinity"
  | inf true => "-Infinity"
  | fin neg mant exp =>
    if mant = 0 then "0"
    else (if neg then "-" else "") ++ positiveToString mant exp

end Binary64

/-- The text of a Number. -/
def JSNumber.text (d : JSNumber) : String := d.toBinary64.text

/-! ## Values -/

/-- Values of the script that originate from `JSON.parse`, plus `undefined`.
An object is the list of its own properties in insertion order, keys distinct. -/
inductive JSValue where
  | undefined
  | null
  | bool (b : Bool)
  | num (n : JSNumber)
  | str (s : String)
  | arr (items : List JSValue)
  | obj (fields : List (String × JSValue))
  deriving Repr, Inhabited

/-- An exception value; the script only ever reads `e.message`. -/
structure JSError where
  message : String
  deriving Repr, DecidableEq, Inhabited

/-- The `TypeError` raised by a language primitive.  The message text is
engine specific; no handler of the page shows it. -/
def typeError (what : String) : JSError := ⟨what⟩

namespace JSValue

/-- Truthiness, the test `if (v)` and the operands of `&&` and `||` apply. -/
def truthy : JSValue → Bool
  | undefined => false
  | null => false
  | bool b => b
  | num n => !n.toBinary64.isZero
  | str s => s != ""
  | arr _ => true
  | obj _ => true

/-- The test `v !== undefined`. -/
def isDefined : JSValue → Bool
  | undefined => false
  | _ => true

/-- The test `v === s` for a string literal `s`. -/
def strictEqStr : JSValue → String → Bool
  | str t, s => t == s
  | _, _ => false

/-- Own-property lookup in the property list of an object. -/
def lookupField (key : String) : List (String × JSValue) → JSValue
  | [] => undefined
  | (k, v) :: rest => if k == key then v else lookupField key rest

/-- Whether an object has an own property `key`. -/
def hasField (key : String) : List (String × JSValue) → Bool
  | [] => false
  | (k, _) :: rest => k == key || hasField key rest

/-- Number of UTF-16 code units of a string, the `length` of a string. -/
def utf16Length (s : String) : Nat :=
  (s.toList.map (fun c => if c.toNat < 65536 then 1 else 2)).sum

/-- Property read `v.key`.  Reading a property of `undefined` or `null` throws. -/
def getProp (v : JSValue) (key : String) : Except JSError JSValue :=
  match v with
  | undefined => .error (typeError ("Cannot read properties of undefined (reading " ++ key ++ ")"))
  | null => .error (typeError ("Cannot read properties of null (reading " ++ key ++ ")"))
  | bool _ => .ok undefined
  | num _ => .ok undefined
  | str s => if key == "length" then .ok (num (.ofNat (utf16Length s))) else .ok undefined
  | arr items => if key == "length" then .ok (num (.ofNat items.length)) else .ok undefined
  | obj fields => .ok (lookupField key fields)

mutual
/-- String conversion `ToString(v)`, used by `v + "..."`, by template literals
and by assignments to string-typed element properties.  An array joins its
elements with commas; a plain object gives `[object Object]`, unless it has an own
property named `toString`, which shadows the inherited method without being
callable, so that the conversion throws (`none`). -/
def toStr : JSValue → Option String
  | undefined => some "undefined"
  | null => some "null"
  | bool true => some "true"
  | bool false => some "false"
  | num n => some n.text
  | str s => some s
  | arr items => joinItems items
  | obj fields => if hasField "toString" fields then none else some "[object Object]"
/-- The comma join of `Array.prototype.join`: `undefined` and `null` elements
contribute the empty string. -/
def joinItems : List JSValue → Option String
  | [] => some ""
  | [x] =>
    match x with
    | undefined => some ""
    | null => some ""
    | y => toStr y
  | x :: y :: rest =>
    match (match x with
      | undefined => some ""
      | null => some ""
      | z => toStr z), joinItems (y :: rest) with
    | some a, some b => some (a ++ "," ++ b)
    | _, _ => none
end

/-- String conversion as a throwing operation. -/
def toStrE (v : JSValue) : Except JSError String :=
  match toStr v with
  | some s => .ok s
  | none => .error (typeError "Cannot convert object to primitive value")

/-- The expression `v + suffix` for a string `suffix`. -/
def plusStr (v : JSValue) (suffix : String) : Except JSError String :=
  (toStrE v).map (fun s => s ++ suffix)

/-- The expression `prefix + v` for a string `prefix`. -/
def strPlus (pre : String) (v : JSValue) : Except JSError String :=
  (toStrE v).map (fun s => pre ++ s)

/-- Conversion of a value assigned to a string property that is not nullable
(`option.value`, `setAttribute`, `localStorage.setItem`). -/
def toDOMString (v : JSValue) : Except JSError String := toStrE v

/-- Conversion of a value assigned to `textContent`, a nullable string:
`null` and `undefined` both clear the content. -/
def toTextContent : JSValue → Except JSError String
  | undefined => .ok ""
  | null => .ok ""
  | v => toStrE v

/-- Conversion of a value assigned to the `value` of an input element, a
string property on which `null` stands for the empty string. -/
def toInputValue : JSValue → Except JSError String
  | null => .ok ""
  | v => toStrE v

/-! ### Numbers read from strings -/

/-- White space and line terminators, the characters `ToNumber` and `parseInt`
strip. -/
def isStrWhiteSpace (c : Char) : Bool :=
  let n := c.toNat
  n == 9 || n == 10 || n == 11 || n == 12 || n == 13 || n == 32 || n == 160 ||
  n == 5760 || (8192 ≤ n && n ≤ 8202) || n == 8232 || n == 8233 || n == 8239 ||
  n == 8287 || n == 12288 || n == 65279

/-- Value of a character as a digit in the given radix, if it is one. -/
def digitValue (radix : Nat) (c : Char) : Option Nat :=
  let n := c.toNat
  let d := if 48 ≤ n && n ≤ 57 then n - 48
    else if 97 ≤ n && n ≤ 122 then n - 87
    else if 65 ≤ n && n ≤ 90 then n - 55
    else radix
  if d < radix then some d else none

/-- The number a list of digits denotes, most significant digit first. -/
def digitsValue (radix : Nat) (ds : List Nat) : Nat :=
  ds.foldl (fun acc d => acc * radix + d) 0

/-- Longest prefix of digits of the radix, with the rest of the input. -/
def takeDigits (radix : Nat) : List Char → List Nat × List Char
  | [] => ([], [])
  | c :: cs =>
    match digitValue radix c with
    | some d => let r := takeDigits radix cs; (d :: r.1, r.2)
    | none => ([], c :: cs)

/-- A sign character at the head of the input: whether it is a minus, and the
rest. -/
def takeSign : List Char → Bool × List Char
  | '-' :: cs => (true, cs)
  | '+' :: cs => (false, cs)
  | cs => (false, cs)

/-- The exponent part of a decimal literal (`e`, optional sign, digits)
filling the whole of the input; the empty input is exponent zero. -/
def exponentPart : List Char → Option Int
  | [] => some 0
  | c :: cs =>
    if c == 'e' || c == 'E' then
      let sg := takeSign cs
      let ds := takeDigits 10 sg.2
      if ds.1.isEmpty || !ds.2.isEmpty then none
      else some (if sg.1 then -(digitsValue 10 ds.1 : Int) else (digitsValue 10 ds.1 : Int))
    else none

/-- An unsigned decimal literal filling the whole of the input:
digits, optional fraction, optional exponent, with a digit before or after the
point. -/
def unsignedDecimal (cs : List Char) : Option (Nat × Int) :=
  let ip := takeDigits 10 cs
  let fp : List Nat × List Char × Bool :=
    match ip.2 with
    | '.' :: rest => let r := takeDigits 10 rest; (r.1, r.2, true)
    | rest => ([], rest, false)
  if ip.1.isEmpty && fp.1.isEmpty then none
  else
    match exponentPart fp.2.1 with
    | some e => some (digitsValue 10 (ip.1 ++ fp.1), e - (fp.1.length : Int))
    | none => none

/-- An integer literal with a radix prefix (`0x`, `0o`, `0b`, either case)
filling the whole of the input. -/
def nonDecimalInteger : List Char → Option Nat
  | '0' :: c :: rest =>
    let radix : Nat :=
      if c == 'x' || c == 'X' then 16
      else if c == 'o' || c == 'O' then 8
      else if c == 'b' || c == 'B' then 2
      else 0
    let ds := takeDigits radix rest
    if radix == 0 || ds.1.isEmpty || !ds.2.isEmpty then none
    else some (digitsValue radix ds.1)
  | _ => none

/-- `StringToNumber`: the Number a string converts to.  Surrounding white
space is ignored, the empty string is zero, and anything that is not a numeric
literal is not a number. -/
def stringToNumber (s : String) : Binary64 :=
  let body := ((s.toList.dropWhile isStrWhiteSpace).reverse.dropWhile isStrWhiteSpace).reverse
  if body.isEmpty then .fin false 0 0
  else
    match nonDecimalInteger body with
    | some n => (JSNumber.ofNat n).toBinary64
    | none =>
      let sg := takeSign body
      if sg.2 == "Infinity".toList then .inf sg.1
      else
        match unsignedDecimal sg.2 with
        | some (m, e) => JSNumber.toBinary64 ⟨sg.1, m, e⟩
        | none => .nan

/-- The call `parseInt(s)` without a radix argument: leading white space and a
sign are skipped, a `0x` prefix selects radix 16, and the longest run of digits
is read; `none` stands for `NaN`. -/
def parseInt (s : String) : Option Int :=
  let sg := takeSign (s.toList.dropWhile isStrWhiteSpace)
  let rd : Nat × List Char :=
    match sg.2 with
    | '0' :: 'x' :: rest => (16, rest)
    | '0' :: 'X' :: rest => (16, rest)
    | rest => (10, rest)
  let ds := takeDigits rd.1 rd.2
  if ds.1.isEmpty then none
  else some (if sg.1 then -(digitsValue rd.1 ds.1 : Int) else (digitsValue rd.1 ds.1 : Int))

/-! ### Comparison -/

/-- Whether a value is `undefined` or `null`. -/
def isNullish : JSValue → Bool
  | undefined => true
  | null => true
  | _ => false

/-- Whether a value is an object (an array is one). -/
def isObject : JSValue → Bool
  | arr _ => true
  | obj _ => true
  | _ => false

/-- `ToNumber` on a boolean operand of `==`; other values are left alone. -/
def boolToNum : JSValue → JSValue
  | bool true => num 1
  | bool false => num 0
  | v => v

/-- `ToPrimitive`: an object converts to its string, a primitive is itself. -/
def toPrimitive (v : JSValue) : Except JSError JSValue :=
  if isObject v then (toStrE v).map str else .ok v

/-- Loose equality between numbers and strings: same type compares the
values, a number and a string compare after reading the string as a number. -/
def looseEqNumStr : JSValue → JSValue → Bool
  | num a, num b => a.toBinary64.eq b.toBinary64
  | str a, str b => a == b
  | num a, str b => a.toBinary64.eq (stringToNumber b)
  | str a, num b => (stringToNumber a).eq b.toBinary64
  | _, _ => false

/-- The operator `x == y` (`IsLooselyEqual`).  `undefined` and `null` equal
each other and nothing else; two booleans compare directly; otherwise a boolean
operand becomes a number and an object operand becomes its primitive, and the
comparison is made between numbers and strings.  Two objects are equal only when
they are the same object, which two values parsed from different response bodies
never are. -/
def looseEq (x y : JSValue) : Except JSError Bool :=
  if isNullish x then .ok (isNullish y)
  else if isNullish y then .ok false
  else if isObject x && isObject y then .ok false
  else
    match x, y with
    | bool a, bool b => .ok (a == b)
    | _, _ =>
      match toPrimitive (boolToNum x) with
      | .error e => .error e
      | .ok px =>
        match toPrimitive (boolToNum y) with
        | .error e => .error e
        | .ok py => .ok (looseEqNumStr px py)

/-- The test `v > 0`: the operand is converted to a primitive and then to a
number, and compared with zero; a conversion that gives `NaN` compares false. -/
def gtZero : JSValue → Except JSError Bool
  | undefined => .ok false
  | null => .ok false
  | bool b => .ok b
  | num n => .ok n.toBinary64.positive
  | str s => .ok (stringToNumber s).positive
  | v => (toStrE v).map (fun s => (stringToNumber s).positive)

end JSValue

/-! ## Input elements -/

/-- Value sanitisation of a text input (`router_addr`, `router_user`): line
feeds and carriage returns are dropped. -/
def sanitizeText (s : String) : String :=
  String.mk (s.toList.filter (fun c => c != '\n' && c != '\r'))

/-- A valid floating-point number of the HTML standard: an optional `-`, then
digits, or `.` and digits, or both, then optionally `e` or `E`, an optional sign
and digits; nothing before or after. -/
def isValidFloat (s : String) : Bool :=
  let cs : List Char :=
    match s.toList with
    | '-' :: rest => rest
    | rest => rest
  let ip := JSValue.takeDigits 10 cs
  let fp : Option (List Nat × List Char) :=
    match ip.2 with
    | '.' :: rest =>
      let r := JSValue.takeDigits 10 rest
      if r.1.isEmpty then none else some r
    | rest => some ([], rest)
  match fp with
  | none => false
  | some (fd, rest) => (!ip.1.isEmpty || !fd.isEmpty) && (JSValue.exponentPart rest).isSome

/-- The number a valid floating-point number converts to; `none` when the
string is not valid or its value is beyond the finite binary64 values. -/
def htmlFloatValue (s : String) : Option Binary64 :=
  if isValidFloat s then
    let sg : Bool × List Char :=
      match s.toList with
      | '-' :: rest => (true, rest)
      | rest => (false, rest)
    match JSValue.unsignedDecimal sg.2 with
    | some (m, e) =>
      match JSNumber.toBinary64 ⟨sg.1, m, e⟩ with
      | .fin neg mant exp => some (.fin neg mant exp)
      | _ => none
    | none => none
  else none

/-- Value sanitisation of a number input (`min_mbps`, `max_mbps`): a string
that is not a valid floating-point number becomes the empty string. -/
def sanitizeNumber (s : String) : String :=
  if isValidFloat s then s else ""

/-- Value sanitisation of the range input `backlightSlider` of line 508
(`min="0" max="100"`, default step 1): a string that is not a valid
floating-point number becomes the default value 50; a number below 0 becomes 0, a
number above 100 becomes 100, and a number between them that is not whole is
rounded to the nearest whole number, a tie going up. -/
def sanitizeSlider (s : String) : String :=
  if !isValidFloat s then "50"
  else
    match htmlFloatValue s with
    | some (.fin neg mant exp) =>
      let a : Nat := if 0 ≤ exp then mant * 2 ^ exp.toNat else mant
      let b : Nat := if 0 ≤ exp then 1 else 2 ^ (-exp).toNat
      if neg && mant != 0 then "0"
      else if 100 * b < a then "100"
      else if a % b = 0 then s
      else toString ((2 * a + b) / (2 * b))
    | _ => s

/-! ## Page state -/

/-- Content of an `option` element: assigned as plain text (`textContent`, or
the text of a fixed markup literal) or as markup (`innerHTML`). -/
inductive Content where
  | text (s : String)
  | markup (s : String)
  deriving Repr, DecidableEq, Inhabited

/-- An `option` element of a select. -/
structure SelectOption where
  value : String
  content : Content
  selected : Bool
  deriving Repr, DecidableEq, Inhabited

/-- Whether the fragment parser that serves `innerHTML` reads the markup `s` as
one run of text equal to `s`: it holds no `<` (a tag would open), no `&` (a
character reference would be decoded), no NUL (dropped) and no carriage return
(normalised to a line feed). -/
def isPlainMarkup (s : String) : Bool :=
  s.toList.all fun c => c != '<' && c != '&' && c != Char.ofNat 0 && c != '\r'

/-- The text content of an option, as far as this development determines it:
the text that was assigned, or the markup itself when it is plain.  Markup with
tags or character references is not parsed here. -/
def Content.textContent : Content → Option String
  | .text s => some s
  | .markup s => if isPlainMarkup s then some s else none

/-- ASCII whitespace of the HTML standard: tab, line feed, form feed, carriage
return, space. -/
def isAsciiWhitespace (c : Char) : Bool :=
  c == '\t' || c == '\n' || c == Char.ofNat 12 || c == '\r' || c == ' '

/-- Strip leading and trailing ASCII whitespace and replace every inner run
of it by one space.  `started` tells that a character has been kept, `pending`
that a run of whitespace follows the last kept character. -/
def collapseAux : Bool → Bool → List Char → List Char
  | _, _, [] => []
  | started, pending, c :: cs =>
    if isAsciiWhitespace c then collapseAux started started cs
    else (if pending then [' ', c] else [c]) ++ collapseAux true false cs

/-- The "strip and collapse ASCII whitespace" of the HTML standard. -/
def stripAndCollapse (s : String) : String :=
  String.mk (collapseAux false false s.toList)

/-- The label of an option that has no `label` attribute (none of the options
of this page has one): its text content with ASCII whitespace stripped and
collapsed. -/
def SelectOption.label (o : SelectOption) : Option String :=
  o.content.textContent.map stripAndCollapse

/-- The single option that `select.innerHTML = '<option value="">label</option>'`
leaves in a select. -/
def placeholderOption (label : String) : SelectOption :=
  ⟨"", .text label, false⟩

/-- An alert area of a form: its text and its class attribute. -/
structure AlertBox where
  textContent : String
  className : String
  deriving Repr, DecidableEq, Inhabited

/-- The three forms with a save workflow. -/
inductive Section where
  | wifi
  | router
  | graph
  deriving Repr, DecidableEq, Inhabited

/-- Which continuations the script attached to a request it issued, with the
values those continuations captured. -/
inductive Continuation where
  | themeSave
  | backlightUpdate
  | scan (originalText : String)
  | interfaces (selectedInterface : JSValue)
  | stats
  | save (kind : Section)
  | config
  deriving Repr, Inhabited

/-- A call of `fetch`: method, path, the JSON value sent as body (if any), and
the continuations attached. -/
structure Request where
  method : String
  url : String
  /-- value of the `Content-Type` header, when the call sets one -/
  contentType : Option String
  body : Option JSValue
  cont : Continuation
  deriving Repr, Inhabited

/-- How a request completes: the fetch promise rejects (transport failure), or
it resolves with a response, of which the script uses the status and the result
of reading the body as JSON. -/
inductive FetchResult where
  | rejected (e : JSError)
  | response (status : Nat) (json : Except JSError JSValue)

/-- The test `r.ok` of a response: status in the range 200 to 299. -/
def statusOk (status : Nat) : Bool := 200 ≤ status && status ≤ 299

/-- State read and written by the script.  Element fields are named after the
element ids of the markup. -/
structure Page where
  /-- the script variable `currentTheme` -/
  currentTheme : JSValue
  /-- attribute `data-theme` of the document element -/
  dataTheme : String
  /-- entry `theme` of `localStorage` -/
  storedTheme : Option String
  /-- text of the button `themeToggle` -/
  themeToggle : String
  /-- value of the range input `backlightSlider` -/
  backlightSlider : String
  /-- style property `--slider-percent` of `backlightSlider` -/
  sliderPercent : Option String
  /-- text of the span `backlightValue` -/
  backlightValue : String
  /-- markup inside the button `scanBtn` -/
  scanBtnHTML : String
  /-- whether `scanBtn` is disabled -/
  scanBtnDisabled : Bool
  /-- options of the select `ssid` -/
  ssid : List SelectOption
  /-- options of the select `interface_id` -/
  interface_id : List SelectOption
  cpu : String
  ram : String
  rx : String
  tx : String
  ipAddress : String
  wifiAlert : AlertBox
  routerAlert : AlertBox
  graphAlert : AlertBox
  router_addr : String
  router_user : String
  min_mbps : String
  max_mbps : String
  /-- requests issued so far, oldest first -/
  requests : List Request
  /-- messages of the blocking `alert` dialogs raised so far -/
  dialogs : List String
  /-- first argument of each `console.error` call so far -/
  console : List String
  deriving Repr, Inhabited

/-- Result of running a handler body: it ran to its end, or it threw at some
point, in which case the state is the one reached when the exception left. -/
inductive Run where
  | done (page : Page)
  | threw (page : Page) (e : JSError)

/-- Sequencing of statements: the rest runs only if the first part did not
throw. -/
def Run.andThen : Run → (Page → Run) → Run
  | .done p, f => f p
  | .threw p e, _ => .threw p e

/-- Evaluate an expression that may throw, then continue with its value. -/
def evalThen {α : Type} (p : Page) (x : Except JSError α) (k : α → Run) : Run :=
  match x with
  | .ok a => k a
  | .error e => .threw p e

/-- The chain `fetch(...).then(r => r.json()).then(handler).catch(onError)`:
the handler runs on the parsed body; a rejected fetch, an unreadable body and an
exception thrown by the handler all end in `onError`. -/
def jsonChain (handler : Page → JSValue → Run) (onError : Page → JSError → Page)
    (p : Page) : FetchResult → Page
  | .rejected e => onError p e
  | .response _ (.error e) => onError p e
  | .response _ (.ok data) =>
    match handler p data with
    | .done q => q
    | .threw q e => onError q e

/-- Issue a request: `fetch` never throws synchronously, it appends to the
trace. -/
def Page.fetch (p : Page) (r : Request) : Page :=
  { p with requests := p.requests ++ [r] }

/-- A `fetch(url)` call without options. -/
def getRequest (url : String) (cont : Continuation) : Request :=
  ⟨"GET", url, none, none, cont⟩

/-- A `fetch(url, {method: 'POST', headers: {'Content-Type':
'application/json'}, body: JSON.stringify(body)})` call. -/
def postRequest (url : String) (body : JSValue) (cont : Continuation) : Request :=
  ⟨"POST", url, some "application/json", some body, cont⟩

/-- Write one `console.error` call to the trace. -/
def Page.logError (p : Page) (label : String) : Page :=
  { p with console := p.console ++ [label] }

/-! ## Theme (lines 612-627) -/

/-- The glyph `currentTheme === 'dark' ? sun : moon` shown on the toggle. -/
def themeGlyph (t : JSValue) : String :=
  if t.strictEqStr "dark" then "☀️" else "🌙"

/-- Lines 612-614: `currentTheme = localStorage.getItem('theme') || 'light'`,
then the attribute and the glyph follow it. -/
def initTheme (p : Page) : Page :=
  let t : String :=
    match p.storedTheme with
    | some s => if s != "" then s else "light"
    | none => "light"
  { p with currentTheme := .str t, dataTheme := t, themeToggle := themeGlyph (.str t) }

/-- Lines 616-627: click on `themeToggle`. -/
def themeToggleClick (p : Page) : Page :=
  let t : String := if p.currentTheme.strictEqStr "light" then "dark" else "light"
  let p1 : Page := { p with currentTheme := .str t }
  let p2 : Page := { p1 with dataTheme := t }
  let p3 : Page := { p2 with storedTheme := some t }
  let p4 : Page := { p3 with themeToggle := themeGlyph p3.currentTheme }
  p4.fetch (postRequest "/api/theme" (.obj [("theme", p4.currentTheme)]) .themeSave)

/-- Line 626: the `catch` of the theme request. -/
def themeSaveFailed (p : Page) (_e : JSError) : Page :=
  p.logError "Theme save failed:"

/-! ## Backlight (lines 629-645) -/

/-- Lines 629-632: `updateSliderBackground(slider, value)` for the one slider
of the page: `percent = value || slider.value`, then the style property is set to
`percent + '%'`. -/
def updateSliderBackground (p : Page) (value : JSValue) : Run :=
  let percent : JSValue := if value.truthy then value else .str p.backlightSlider
  evalThen p (percent.plusStr "%") fun s =>
  .done { p with sliderPercent := some s }

/-- The value `JSON.stringify` sends for a number: `NaN` is sent as `null`. -/
def numberOrNull : Option Int → JSValue
  | some n => .num (.ofInt n)
  | none => .null

/-- Lines 634-643: `input` event of `backlightSlider`; `this.value` is the
value the slider holds when the event fires. -/
def backlightInput (p : Page) : Run :=
  let p1 : Page := { p with backlightValue := p.backlightSlider }
  (updateSliderBackground p1 .undefined).andThen fun p2 =>
  .done (p2.fetch (postRequest "/api/backlight"
    (.obj [("brightness", numberOrNull (JSValue.parseInt p2.backlightSlider))]) .backlightUpdate))

/-- Line 642: the `catch` of the backlight request. -/
def backlightUpdateFailed (p : Page) (_e : JSError) : Page :=
  p.logError "Backlight update failed:"

/-! ## Lists -/

/-- The call `items.forEach(f)` on an array: `f` runs on each element in order,
and an exception ends the loop. -/
def forEachRun (f : Page → JSValue → Run) : List JSValue → Page → Run
  | [], p => .done p
  | x :: xs, p => (f p x).andThen (forEachRun f xs)

/-- The call `v.forEach(f)`: only an array has the method; on any other value
the call throws. -/
def callForEach (f : Page → JSValue → Run) (v : JSValue) (p : Page) : Run :=
  match v with
  | .arr items => forEachRun f items p
  | _ => .threw p (typeError "forEach is not a function")

/-- The condition `v && v.length > 0`. -/
def hasItems (v : JSValue) : Except JSError Bool :=
  if v.truthy then (v.getProp "length").bind JSValue.gtZero else .ok false

/-! ## WiFi scan (lines 647-677) -/

/-- Lines 659-662: body of the loop over `data.networks`. -/
def appendNetwork (p : Page) (net : JSValue) : Run :=
  evalThen p (net.getProp "ssid") fun ssid =>
  evalThen p ssid.toDOMString fun value =>
  evalThen p ssid.toStrE fun ssidText =>
  evalThen p (net.getProp "strength") fun strength =>
  evalThen p strength.toStrE fun strengthText =>
  evalThen p (net.getProp "rssi") fun rssi =>
  evalThen p rssi.toStrE fun rssiText =>
  .done { p with ssid := p.ssid ++
    [⟨value, .markup (ssidText ++ " (" ++ strengthText ++ " " ++ rssiText ++ "dBm)"), false⟩] }

/-- Lines 654-670: success continuation of the scan. -/
def scanLoaded (originalText : String) (p : Page) (data : JSValue) : Run :=
  let p1 : Page := { p with ssid := [placeholderOption "Select a network"] }
  evalThen p1 (data.getProp "networks") fun networks =>
  evalThen p1 (hasItems networks) fun nonEmpty =>
  (if nonEmpty then callForEach appendNetwork networks p1
   else .done { p1 with ssid := [placeholderOption "No networks found"] }).andThen fun p2 =>
  let p3 : Page := { p2 with scanBtnHTML := originalText }
  .done { p3 with scanBtnDisabled := false }

/-- Lines 671-676: the `catch` of the scan. -/
def scanFailed (originalText : String) (p : Page) (_e : JSError) : Page :=
  let p1 := p.logError "WiFi scan failed:"
  let p2 : Page := { p1 with scanBtnHTML := originalText }
  let p3 : Page := { p2 with scanBtnDisabled := false }
  { p3 with dialogs := p3.dialogs ++ ["WiFi scan failed. Please try again."] }

/-! ## Interfaces (lines 679-699) -/

/-- Line 680: `loadInterfaces(selectedInterface)` issues the request; its
continuations capture the argument. -/
def loadInterfaces (p : Page) (selectedInterface : JSValue) : Page :=
  p.fetch (getRequest "/api/interfaces" (.interfaces selectedInterface))

/-- Line 691: the condition `selectedInterface && iface.id == selectedInterface`. -/
def isSelectedInterface (selectedInterface id : JSValue) : Except JSError Bool :=
  if selectedInterface.truthy then JSValue.looseEq id selectedInterface else .ok false

/-- Lines 688-694: body of the loop over `data.interfaces`. -/
def appendInterface (selectedInterface : JSValue) (p : Page) (iface : JSValue) : Run :=
  evalThen p (iface.getProp "id") fun id =>
  evalThen p id.toDOMString fun value =>
  evalThen p (iface.getProp "name") fun name =>
  evalThen p name.toStrE fun nameText =>
  evalThen p id.toStrE fun idText =>
  evalThen p (isSelectedInterface selectedInterface id) fun selected =>
  .done { p with interface_id := p.interface_id ++
    [⟨value, .text (nameText ++ " (ID: " ++ idText ++ ")"), selected⟩] }

/-- Lines 682-697: success continuation of `loadInterfaces`. -/
def interfacesLoaded (selectedInterface : JSValue) (p : Page) (data : JSValue) : Run :=
  let p1 : Page := { p with interface_id := [placeholderOption "Select interface"] }
  evalThen p1 (data.getProp "interfaces") fun interfaces =>
  evalThen p1 (hasItems interfaces) fun nonEmpty =>
  if nonEmpty then callForEach (appendInterface selectedInterface) interfaces p1
  else .done p1

/-- Line 698: the `catch` of `loadInterfaces`. -/
def interfacesFailed (p : Page) (_e : JSError) : Page :=
  p.logError "Interface load failed:"

/-! ## Telemetry (lines 701-720) -/

/-- Line 702: `updateStats()` issues the request. -/
def updateStats (p : Page) : Page :=
  p.fetch (getRequest "/api/stats" .stats)

/-- Lines 704-713: success continuation of `updateStats`. -/
def statsLoaded (p : Page) (data : JSValue) : Run :=
  evalThen p (data.getProp "cpu") fun cpu =>
  evalThen p (cpu.plusStr "%") fun cpuText =>
  let p1 : Page := { p with cpu := cpuText }
  evalThen p1 (data.getProp "ram") fun ram =>
  evalThen p1 ram.toTextContent fun ramText =>
  let p2 : Page := { p1 with ram := ramText }
  evalThen p2 (data.getProp "rx") fun rx =>
  evalThen p2 (rx.plusStr " Mbps") fun rxText =>
  let p3 : Page := { p2 with rx := rxText }
  evalThen p3 (data.getProp "tx") fun tx =>
  evalThen p3 (tx.plusStr " Mbps") fun txText =>
  let p4 : Page := { p3 with tx := txText }
  evalThen p4 (data.getProp "ip") fun ip =>
  if ip.truthy then
    evalThen p4 (ip.strPlus "IP: ") fun badge =>
    .done { p4 with ipAddress := badge }
  else .done p4

/-- Lines 714-719: the `catch` of `updateStats`. -/
def statsFailed (p : Page) (_e : JSError) : Page :=
  let p0 := p.logError "Stats fetch failed:"
  let p1 : Page := { p0 with cpu := "N/A" }
  let p2 : Page := { p1 with ram := "N/A" }
  let p3 : Page := { p2 with rx := "N/A" }
  { p3 with tx := "N/A" }

/-- The whole of `updateStats` once its request has completed. -/
def statsSettled : Page → FetchResult → Page :=
  jsonChain statsLoaded statsFailed

/-! ## Save forms (lines 722-804) -/

/-- The alert area of a section. -/
def Page.alertBox (p : Page) : Section → AlertBox
  | .wifi => p.wifiAlert
  | .router => p.routerAlert
  | .graph => p.graphAlert

/-- Replace the alert area of a section. -/
def Page.setAlertBox (p : Page) (kind : Section) (a : AlertBox) : Page :=
  match kind with
  | .wifi => { p with wifiAlert := a }
  | .router => { p with routerAlert := a }
  | .graph => { p with graphAlert := a }

/-- Endpoint of each form (lines 731, 759, 787). -/
def saveUrl : Section → String
  | .wifi => "/save-wifi"
  | .router => "/save-router"
  | .graph => "/save-graph"

/-- In-progress message of each form (lines 728, 756, 784). -/
def savingText : Section → String
  | .wifi => "Saving WiFi configuration..."
  | .router => "Saving router configuration..."
  | .graph => "Saving graph settings..."

/-- Confirmation message of each form (lines 741, 769, 797). -/
def savedText : Section → String
  | .wifi => "✓ WiFi configuration saved! Device restarting..."
  | .router => "✓ Router configuration saved! Device restarting..."
  | .graph => "✓ Graph settings saved! Device restarting..."

/-- Assignment `o[key] = v` on a property list: an existing key keeps its
place and takes the new value, a new key goes to the end. -/
def setField (key : String) (v : JSValue) : List (String × JSValue) → List (String × JSValue)
  | [] => [(key, v)]
  | (k, w) :: rest => if k == key then (k, v) :: rest else (k, w) :: setField key v rest

/-- The object `Object.fromEntries(formData)` for the name and value pairs of
a form. -/
def fromEntries (entries : List (String × String)) : JSValue :=
  .obj (entries.foldl (fun fields kv => setField kv.1 (.str kv.2) fields) [])

/-- The `submit` handlers (lines 722-735, 750-763, 778-791), up to the call of
`fetch`; `formData` holds the entries of `new FormData(e.target)`.  The call
`e.preventDefault()` keeps the browser from navigating and leaves the page state
alone. -/
def saveSubmit (kind : Section) (formData : List (String × String)) (p : Page) : Page :=
  let p1 := p.setAlertBox kind { (p.alertBox kind) with textContent := savingText kind }
  let p2 := p1.setAlertBox kind { (p1.alertBox kind) with className := "alert show" }
  p2.fetch (postRequest (saveUrl kind) (fromEntries formData) (.save kind))

/-- The second `then` of a save chain (lines 740-743 and siblings). -/
def saveSucceeded (kind : Section) (p : Page) (_data : JSValue) : Page :=
  let p1 := p.setAlertBox kind { (p.alertBox kind) with textContent := savedText kind }
  p1.setAlertBox kind { (p1.alertBox kind) with className := "alert show" }

/-- The `catch` of a save chain (lines 744-747 and siblings). -/
def saveFailed (kind : Section) (p : Page) (e : JSError) : Page :=
  let p1 := p.setAlertBox kind { (p.alertBox kind) with textContent := "✗ Error: " ++ e.message }
  p1.setAlertBox kind { (p1.alertBox kind) with className := "alert show error" }

/-- A save chain once its request has completed (lines 736-747 and siblings):
the first `then` throws `new Error('Save failed')` unless `r.ok` and otherwise
reads the body as JSON. -/
def saveSettled (kind : Section) (p : Page) : FetchResult → Page
  | .rejected e => saveFailed kind p e
  | .response status json =>
    if !statusOk status then saveFailed kind p ⟨"Save failed"⟩
    else
      match json with
      | .error e => saveFailed kind p e
      | .ok data => saveSucceeded kind p data

/-! ## Initial configuration (lines 806-836) -/

/-- Lines 809-815: the option for the current network. -/
def configSsid (p : Page) (data : JSValue) : Run :=
  evalThen p (data.getProp "ssid") fun ssid =>
  if ssid.truthy then
    evalThen p ssid.toDOMString fun value =>
    evalThen p (ssid.plusStr " (current)") fun label =>
    .done { p with ssid := p.ssid ++ [⟨value, .text label, true⟩] }
  else .done p

/-- Line 816. -/
def configRouterAddr (p : Page) (data : JSValue) : Run :=
  evalThen p (data.getProp "router_addr") fun v =>
  if v.truthy then
    evalThen p v.toInputValue fun s => .done { p with router_addr := sanitizeText s }
  else .done p

/-- Line 817. -/
def configRouterUser (p : Page) (data : JSValue) : Run :=
  evalThen p (data.getProp "router_user") fun v =>
  if v.truthy then
    evalThen p v.toInputValue fun s => .done { p with router_user := sanitizeText s }
  else .done p

/-- Line 818. -/
def configInterfaces (p : Page) (data : JSValue) : Run :=
  evalThen p (data.getProp "interface_id") fun v =>
  .done (loadInterfaces p v)

/-- Line 819. -/
def configMaxMbps (p : Page) (data : JSValue) : Run :=
  evalThen p (data.getProp "max_mbps") fun v =>
  if v.isDefined then
    evalThen p v.toInputValue fun s => .done { p with max_mbps := sanitizeNumber s }
  else .done p

/-- Line 820. -/
def configMinMbps (p : Page) (data : JSValue) : Run :=
  evalThen p (data.getProp "min_mbps") fun v =>
  if v.isDefined then
    evalThen p v.toInputValue fun s => .done { p with min_mbps := sanitizeNumber s }
  else .done p

/-- Lines 821-825. -/
def configBacklight (p : Page) (data : JSValue) : Run :=
  evalThen p (data.getProp "backlight") fun v =>
  if v.isDefined then
    evalThen p v.toInputValue fun s =>
    let p1 : Page := { p with backlightSlider := sanitizeSlider s }
    evalThen p1 v.toTextContent fun t =>
    let p2 : Page := { p1 with backlightValue := t }
    updateSliderBackground p2 .undefined
  else .done p

/-- Lines 826-831. -/
def configTheme (p : Page) (data : JSValue) : Run :=
  evalThen p (data.getProp "theme") fun v =>
  if v.truthy then
    let p1 : Page := { p with currentTheme := v }
    evalThen p1 p1.currentTheme.toDOMString fun s =>
    let p2 : Page := { p1 with dataTheme := s }
    let p3 : Page := { p2 with storedTheme := some s }
    .done { p3 with themeToggle := themeGlyph p3.currentTheme }
  else .done p

/-- Lines 832-834. -/
def configIp (p : Page) (data : JSValue) : Run :=
  evalThen p (data.getProp "ip") fun v =>
  if v.truthy then
    evalThen p (v.strPlus "IP: ") fun s => .done { p with ipAddress := s }
  else .done p

/-- Lines 808-835: success continuation of the configuration request, its
statements in source order. -/
def configLoaded (p : Page) (data : JSValue) : Run :=
  (configSsid p data).andThen fun p1 =>
  (configRouterAddr p1 data).andThen fun p2 =>
  (configRouterUser p2 data).andThen fun p3 =>
  (configInterfaces p3 data).andThen fun p4 =>
  (configMaxMbps p4 data).andThen fun p5 =>
  (configMinMbps p5 data).andThen fun p6 =>
  (configBacklight p6 data).andThen fun p7 =>
  (configTheme p7 data).andThen fun p8 =>
  configIp p8 data

/-- Line 836: the `catch` of the configuration request. -/
def configFailed (p : Page) (_e : JSError) : Page :=
  p.logError "Config load failed:"

/-! ## The page as a whole -/

/-- The state the markup describes (lines 470-602), before the script runs,
for a given `theme` entry of `localStorage`. -/
def markupPage (storedTheme : Option String) : Page where
  currentTheme := .undefined
  dataTheme := ""
  storedTheme := storedTheme
  themeToggle := "🌙"
  backlightSlider := "100"
  sliderPercent := none
  backlightValue := "100"
  scanBtnHTML := "\n        📡 Scan WiFi Networks\n      "
  scanBtnDisabled := false
  ssid := [placeholderOption "Click 'Scan WiFi Networks' first"]
  interface_id := [placeholderOption "Loading interfaces..."]
  cpu := "--"
  ram := "--"
  rx := "--"
  tx := "--"
  ipAddress := "IP: Loading..."
  wifiAlert := ⟨"", "alert"⟩
  routerAlert := ⟨"", "alert"⟩
  graphAlert := ⟨"", "alert"⟩
  router_addr := ""
  router_user := ""
  min_mbps := "0"
  max_mbps := "480"
  requests := []
  dialogs := []
  console := []

/-- The top level of the script run once at load (lines 612-614, 645, 806,
838): theme initialisation, slider fill, the configuration request and the first
telemetry request.  The periodic timer of line 839 calls `updateStats` again
later. -/
def pageLoad (p : Page) : Run :=
  (updateSliderBackground (initTheme p) .undefined).andThen fun p1 =>
  .done (updateStats (p1.fetch (getRequest "/api/config" .config)))

/-- Completion of a request: the continuations the script attached to it run
on the current page. -/
def settle (p : Page) : Continuation → FetchResult → Page
  | .themeSave, .rejected e => themeSaveFailed p e
  | .themeSave, .response _ _ => p
  | .backlightUpdate, .rejected e => backlightUpdateFailed p e
  | .backlightUpdate, .response _ _ => p
  | .scan originalText, r => jsonChain (scanLoaded originalText) (scanFailed originalText) p r
  | .interfaces selected, r => jsonChain (interfacesLoaded selected) interfacesFailed p r
  | .stats, r => statsSettled p r
  | .save kind, r => saveSettled kind p r
  | .config, r => jsonChain configLoaded configFailed p r

/-! ## Vocabulary of the statements -/

/-- The page a run ended with, thrown or not. -/
def Run.page : Run → Page
  | .done p => p
  | .threw p _ => p

/-- Whether a value has a string conversion, that is, `ToString` does not
throw on it.  Every primitive has one. -/
def JSValue.hasText (v : JSValue) : Bool := (JSValue.toStr v).isSome

/-- The string a value converts to (the empty string where the conversion
throws). -/
def JSValue.text (v : JSValue) : String := (JSValue.toStr v).getD ""

/-- The property `v.key`, with `undefined` where the read throws. -/
def JSValue.field (v : JSValue) (key : String) : JSValue :=
  match v.getProp key with
  | .ok x => x
  | .error _ => .undefined

/-- The text of `v` as `textContent` takes it: empty for `undefined` and
`null`. -/
def JSValue.asTextContent (v : JSValue) : String :=
  if v.isNullish then "" else v.text

/-- The text of `v` as the `value` of an input takes it: empty for `null`. -/
def JSValue.asInputValue : JSValue → String
  | .null => ""
  | v => v.text

/-- The property names the configuration handler converts to strings. -/
def configKeys : List String :=
  ["ssid", "router_addr", "router_user", "max_mbps", "min_mbps", "backlight", "theme", "ip"]

/-- The failure path of `updateStats`: the request is rejected, its body does
not read as JSON, or the success continuation throws.  These are the cases in
which the `catch` of lines 714-719 runs. -/
def statsFails (p : Page) : FetchResult → Bool
  | .rejected _ => true
  | .response _ (.error _) => true
  | .response _ (.ok data) =>
    match statsLoaded p data with
    | .threw _ _ => true
    | .done _ => false

/-- The property names the telemetry handler converts to strings. -/
def statsKeys : List String := ["cpu", "ram", "rx", "tx", "ip"]

/-- The string of the template literal of line 661 for a network entry
`net`: `ssid (strength rssidBm)`. -/
def networkLabel (net : JSValue) : String :=
  (net.field "ssid").text ++ " (" ++ (net.field "strength").text ++ " " ++
    (net.field "rssi").text ++ "dBm)"

/-- The option the scan handler builds for a network entry `net`: value
`net.ssid`, content the markup `ssid (strength rssidBm)`, not selected. -/
def networkOption (net : JSValue) : SelectOption :=
  ⟨(net.field "ssid").text, .markup (networkLabel net), false⟩

/-- A network entry the scan handler can format: its properties can be read
(it is not `null`) and `ssid`, `strength`, `rssi` have a string conversion.  Every
object with primitive fields is one. -/
def formattableNetwork (net : JSValue) : Bool :=
  !net.isNullish && (net.field "ssid").hasText && (net.field "strength").hasText &&
    (net.field "rssi").hasText

/-- Whether `x == y` holds, for operands on which the comparison does not
throw. -/
def JSValue.looselyEquals (x y : JSValue) : Bool :=
  match JSValue.looseEq x y with
  | .ok b => b
  | .error _ => false

/-- The option `loadInterfaces(selectedInterface)` builds for an entry
`iface`: value `iface.id`, text `name (ID: id)`, and the selected flag set by the
condition of line 691. -/
def interfaceOption (selectedInterface iface : JSValue) : SelectOption :=
  ⟨(iface.field "id").text,
   .text ((iface.field "name").text ++ " (ID: " ++ (iface.field "id").text ++ ")"),
   selectedInterface.truthy && (iface.field "id").looselyEquals selectedInterface⟩

/-- An interface entry the handler can format: its properties can be read
(it is not `null`) and `id` and `name` have a string conversion.  Every object
with primitive fields is one. -/
def formattableInterface (iface : JSValue) : Bool :=
  !iface.isNullish && (iface.field "id").hasText && (iface.field "name").hasText

/-- The run with a given outcome: ended normally on `p`, or threw `e` on `p`. -/
def Run.ofOutcome (err : Option JSError) (p : Page) : Run :=
  match err with
  | none => .done p
  | some e => .threw p e

section Lemmas

open JSValue

theorem bitLengthAux_spec (fuel n : Nat) (h : n ≤ fuel) (hn : 0 < n) :
    2 ^ (bitLengthAux fuel n - 1) ≤ n ∧ 0 < bitLengthAux fuel n := by
  induction fuel generalizing n with
  | zero => omega
  | succ fuel ih =>
    have hne : n ≠ 0 := by omega
    simp only [bitLengthAux, hne, if_false]
    by_cases h2 : n / 2 = 0
    · have h1 : n = 1 := by omega
      subst h1
      cases fuel <;> simp [bitLengthAux]
    · have hpos : 0 < n / 2 := Nat.pos_of_ne_zero h2
      have hle : n / 2 ≤ fuel := by omega
      obtain ⟨ih1, ih2⟩ := ih (n / 2) hle hpos
      refine ⟨?_, by omega⟩
      have hexp : bitLengthAux fuel (n / 2) + 1 - 1 = (bitLengthAux fuel (n / 2) - 1) + 1 := by
        omega
      rw [hexp, pow_succ]
      omega

theorem two_pow_bitLength_le (n : Nat) (hn : 0 < n) : 2 ^ (bitLength n - 1) ≤ n ∧ 0 < bitLength n :=
  bitLengthAux_spec n n (le_refl n) hn

theorem le_roundHalfEven (a b : Nat) : a / b ≤ roundHalfEven a b := by
  unfold roundHalfEven
  split
  · omega
  · split <;> omega

theorem positive_roundRatio_one (a : Nat) (ha : 0 < a) :
    (roundRatio false a 1).positive = true := by
  have hbl := two_pow_bitLength_le a ha
  have hne : a ≠ 0 := by omega
  have hpos : ∀ q : Int, q ≤ (bitLength a : Int) - 1 - 52 ∨ q = -1074 →
      0 < roundHalfEven (if 0 ≤ q then a else a * 2 ^ (-q).toNat)
        (if 0 ≤ q then 1 * 2 ^ q.toNat else 1) := by
    intro q hq
    refine lt_of_lt_of_le ?_ (le_roundHalfEven _ _)
    by_cases h0 : 0 ≤ q
    · simp only [h0, if_true, one_mul]
      have hq' : q ≤ (bitLength a : Int) - 1 - 52 := by omega
      have hqn : q.toNat ≤ bitLength a - 1 := by omega
      have h2 : 2 ^ q.toNat ≤ a :=
        le_trans (Nat.pow_le_pow_right (by norm_num) hqn) hbl.1
      exact Nat.div_pos h2 (by positivity)
    · simp only [h0, if_false]
      simp only [Nat.div_one]
      exact Nat.mul_pos ha (by positivity)
  unfold roundRatio
  simp only [hne, if_false]
  have hb1 : bitLength 1 = 1 := by decide
  have hq : ∀ fl : Int, fl ≤ (bitLength a : Int) - 1 →
      (max (fl - 52) (-1074) ≤ (bitLength a : Int) - 1 - 52 ∨ max (fl - 52) (-1074) = -1074) := by
    intro fl hfl
    rcases le_total (fl - 52) (-1074) with h | h
    · right; exact max_eq_right h
    · left; rw [max_eq_left h]; omega
  have hfl : (if geTwoPow a 1 ((bitLength a : Int) - (bitLength 1 : Int)) then
      (bitLength a : Int) - (bitLength 1 : Int) else (bitLength a : Int) - (bitLength 1 : Int) - 1)
      ≤ (bitLength a : Int) - 1 := by
    rw [hb1]
    split <;> omega
  have hm := hpos _ (hq _ hfl)
  generalize roundHalfEven _ _ = m at hm ⊢
  have hm0 : m ≠ 0 := by omega
  simp only [hm0, if_false]
  split_ifs <;> simp [Binary64.positive, hm0]

theorem positive_ofNat (n : Nat) (hn : 0 < n) :
    (JSNumber.ofNat n).toBinary64.positive = true := by
  have hne : n ≠ 0 := by omega
  unfold JSNumber.toBinary64 JSNumber.ofNat
  simp only [hne, if_false, add_zero]
  split
  · rfl
  · split
    · omega
    · simp only [le_refl, if_true, Int.toNat_zero, pow_zero, mul_one]
      exact positive_roundRatio_one n hn

theorem toStrE_of_hasText {v : JSValue} (h : v.hasText = true) : v.toStrE = .ok v.text := by
  unfold JSValue.hasText at h
  unfold JSValue.toStrE JSValue.text
  cases hv : v.toStr with
  | none => simp [hv] at h
  | some s => simp

/-- Every value that is not an object has a string conversion. -/
theorem hasText_of_not_isObject {v : JSValue} (h : v.isObject = false) : v.hasText = true := by
  cases v with
  | bool b => cases b <;> rfl
  | arr items => simp [isObject] at h
  | obj fields => simp [isObject] at h
  | undefined => rfl
  | null => rfl
  | num n => rfl
  | str s => rfl

theorem plusStr_of_hasText {v : JSValue} (h : v.hasText = true) (suffix : String) :
    v.plusStr suffix = .ok (v.text ++ suffix) := by
  simp [JSValue.plusStr, toStrE_of_hasText h, Except.map]

theorem strPlus_of_hasText {v : JSValue} (h : v.hasText = true) (pre : String) :
    JSValue.strPlus pre v = .ok (pre ++ v.text) := by
  simp [JSValue.strPlus, toStrE_of_hasText h, Except.map]

theorem toDOMString_of_hasText {v : JSValue} (h : v.hasText = true) :
    v.toDOMString = .ok v.text := by
  simp [JSValue.toDOMString, toStrE_of_hasText h]

theorem toTextContent_of_hasText {v : JSValue} (h : v.hasText = true) :
    v.toTextContent = .ok v.asTextContent := by
  cases v <;> simp [JSValue.toTextContent, JSValue.asTextContent, JSValue.isNullish,
    toStrE_of_hasText h]

theorem toInputValue_of_hasText {v : JSValue} (h : v.hasText = true) :
    v.toInputValue = .ok v.asInputValue := by
  cases v <;> simp [JSValue.toInputValue, JSValue.asInputValue, toStrE_of_hasText h]

theorem toStrE_of_not_hasText {v : JSValue} (h : v.hasText = false) :
    v.toStrE = .error (typeError "Cannot convert object to primitive value") := by
  unfold JSValue.hasText at h
  unfold JSValue.toStrE
  cases hv : v.toStr with
  | none => rfl
  | some s => simp [hv] at h

/-- Only an object can lack a string conversion, and every object is truthy
and neither `undefined` nor `null`. -/
theorem isObject_of_not_hasText {v : JSValue} (h : v.hasText = false) :
    v.isObject = true ∧ v.truthy = true ∧ v.isNullish = false := by
  cases hv : v.isObject with
  | false => rw [hasText_of_not_isObject hv] at h; exact absurd h (by decide)
  | true => cases v <;> simp_all [isObject, truthy, isNullish]

theorem plusStr_of_not_hasText {v : JSValue} (h : v.hasText = false) (suffix : String) :
    v.plusStr suffix = .error (typeError "Cannot convert object to primitive value") := by
  simp [JSValue.plusStr, toStrE_of_not_hasText h, Except.map]

theorem strPlus_of_not_hasText {v : JSValue} (h : v.hasText = false) (pre : String) :
    JSValue.strPlus pre v = .error (typeError "Cannot convert object to primitive value") := by
  simp [JSValue.strPlus, toStrE_of_not_hasText h, Except.map]

theorem toTextContent_of_not_hasText {v : JSValue} (h : v.hasText = false) :
    v.toTextContent = .error (typeError "Cannot convert object to primitive value") := by
  have ho := (isObject_of_not_hasText h).1
  cases v <;> simp_all [isObject, JSValue.toTextContent, toStrE_of_not_hasText h]

theorem lookupField_of_not_hasField (key : String) (fields : List (String × JSValue))
    (h : hasField key fields = false) : lookupField key fields = .undefined := by
  induction fields with
  | nil => rfl
  | cons kv rest ih =>
    obtain ⟨k, v⟩ := kv
    simp only [hasField, Bool.or_eq_false_iff] at h
    simp [lookupField, h.1, ih h.2]

end Lemmas

open JSValue

/-! ### Configuration handler -/

theorem Run.done_andThen (p : Page) (f : Page → Run) : (Run.done p).andThen f = f p := rfl

theorem sanitizeText_of_no_line_break (s : String)
    (h : ∀ c ∈ s.toList, c ≠ '\n' ∧ c ≠ '\r') : sanitizeText s = s := by
  unfold sanitizeText
  have hf : s.toList.filter (fun c => c != '\n' && c != '\r') = s.toList := by
    rw [List.filter_eq_self]
    intro c hc
    have := h c hc
    simp [this.1, this.2]
  rw [hf]
  rfl

section ConfigSteps

variable (p : Page) (fields : List (String × JSValue))

theorem configSsid_obj (h : (lookupField "ssid" fields).hasText = true) :
    configSsid p (.obj fields) = .done
      { p with ssid :=
          if (lookupField "ssid" fields).truthy then
            p.ssid ++ [⟨(lookupField "ssid" fields).text,
              .text ((lookupField "ssid" fields).text ++ " (current)"), true⟩]
          else p.ssid } := by
  simp only [configSsid, getProp, evalThen, toDOMString_of_hasText h, plusStr_of_hasText h]
  split <;> rfl

theorem configRouterAddr_obj (h : (lookupField "router_addr" fields).hasText = true) :
    configRouterAddr p (.obj fields) = .done
      { p with router_addr :=
          if (lookupField "router_addr" fields).truthy then
            sanitizeText (lookupField "router_addr" fields).asInputValue
          else p.router_addr } := by
  simp only [configRouterAddr, getProp, evalThen, toInputValue_of_hasText h]
  split <;> rfl

theorem configRouterUser_obj (h : (lookupField "router_user" fields).hasText = true) :
    configRouterUser p (.obj fields) = .done
      { p with router_user :=
          if (lookupField "router_user" fields).truthy then
            sanitizeText (lookupField "router_user" fields).asInputValue
          else p.router_user } := by
  simp only [configRouterUser, getProp, evalThen, toInputValue_of_hasText h]
  split <;> rfl

theorem configInterfaces_obj :
    configInterfaces p (.obj fields) = .done
      { p with requests := p.requests ++
          [getRequest "/api/interfaces" (.interfaces (lookupField "interface_id" fields))] } :=
  rfl

theorem configMaxMbps_obj (h : (lookupField "max_mbps" fields).hasText = true) :
    configMaxMbps p (.obj fields) = .done
      { p with max_mbps :=
          if (lookupField "max_mbps" fields).isDefined then
            sanitizeNumber (lookupField "max_mbps" fields).asInputValue
          else p.max_mbps } := by
  simp only [configMaxMbps, getProp, evalThen, toInputValue_of_hasText h]
  split <;> rfl

theorem configMinMbps_obj (h : (lookupField "min_mbps" fields).hasText = true) :
    configMinMbps p (.obj fields) = .done
      { p with min_mbps :=
          if (lookupField "min_mbps" fields).isDefined then
            sanitizeNumber (lookupField "min_mbps" fields).asInputValue
          else p.min_mbps } := by
  simp only [configMinMbps, getProp, evalThen, toInputValue_of_hasText h]
  split <;> rfl

theorem configBacklight_obj (h : (lookupField "backlight" fields).hasText = true) :
    configBacklight p (.obj fields) = .done
      { p with
        backlightSlider :=
          if (lookupField "backlight" fields).isDefined then
            sanitizeSlider (lookupField "backlight" fields).asInputValue
          else p.backlightSlider
        backlightValue :=
          if (lookupField "backlight" fields).isDefined then
            (lookupField "backlight" fields).asTextContent
          else p.backlightValue
        sliderPercent :=
          if (lookupField "backlight" fields).isDefined then
            some (sanitizeSlider (lookupField "backlight" fields).asInputValue ++ "%")
          else p.sliderPercent } := by
  simp only [configBacklight, getProp, evalThen, toInputValue_of_hasText h,
    toTextContent_of_hasText h, updateSliderBackground, truthy, plusStr, toStrE, toStr,
    Except.map]
  split <;> simp

theorem configTheme_obj (h : (lookupField "theme" fields).hasText = true) :
    configTheme p (.obj fields) = .done
      { p with
        currentTheme :=
          if (lookupField "theme" fields).truthy then lookupField "theme" fields
          else p.currentTheme
        dataTheme :=
          if (lookupField "theme" fields).truthy then (lookupField "theme" fields).text
          else p.dataTheme
        storedTheme :=
          if (lookupField "theme" fields).truthy then some (lookupField "theme" fields).text
          else p.storedTheme
        themeToggle :=
          if (lookupField "theme" fields).truthy then themeGlyph (lookupField "theme" fields)
          else p.themeToggle } := by
  simp only [configTheme, getProp, evalThen, toDOMString_of_hasText h]
  split <;> rfl

theorem configIp_obj (h : (lookupField "ip" fields).hasText = true) :
    configIp p (.obj fields) = .done
      { p with ipAddress :=
          if (lookupField "ip" fields).truthy then "IP: " ++ (lookupField "ip" fields).text
          else p.ipAddress } := by
  simp only [configIp, getProp, evalThen, strPlus_of_hasText h]
  split <;> rfl

/-- The page the configuration handler ends with on an object whose listed
fields all have a string conversion. -/
theorem configLoaded_obj (h : ∀ k ∈ configKeys, (lookupField k fields).hasText = true) :
    configLoaded p (.obj fields) = .done
      { p with
        ssid :=
          if (lookupField "ssid" fields).truthy then
            p.ssid ++ [⟨(lookupField "ssid" fields).text,
              .text ((lookupField "ssid" fields).text ++ " (current)"), true⟩]
          else p.ssid
        router_addr :=
          if (lookupField "router_addr" fields).truthy then
            sanitizeText (lookupField "router_addr" fields).asInputValue
          else p.router_addr
        router_user :=
          if (lookupField "router_user" fields).truthy then
            sanitizeText (lookupField "router_user" fields).asInputValue
          else p.router_user
        requests := p.requests ++
          [getRequest "/api/interfaces" (.interfaces (lookupField "interface_id" fields))]
        max_mbps :=
          if (lookupField "max_mbps" fields).isDefined then
            sanitizeNumber (lookupField "max_mbps" fields).asInputValue
          else p.max_mbps
        min_mbps :=
          if (lookupField "min_mbps" fields).isDefined then
            sanitizeNumber (lookupField "min_mbps" fields).asInputValue
          else p.min_mbps
        backlightSlider :=
          if (lookupField "backlight" fields).isDefined then
            sanitizeSlider (lookupField "backlight" fields).asInputValue
          else p.backlightSlider
        backlightValue :=
          if (lookupField "backlight" fields).isDefined then
            (lookupField "backlight" fields).asTextContent
          else p.backlightValue
        sliderPercent :=
          if (lookupField "backlight" fields).isDefined then
            some (sanitizeSlider (lookupField "backlight" fields).asInputValue ++ "%")
          else p.sliderPercent
        currentTheme :=
          if (lookupField "theme" fields).truthy then lookupField "theme" fields
          else p.currentTheme
        dataTheme :=
          if (lookupField "theme" fields).truthy then (lookupField "theme" fields).text
          else p.dataTheme
        storedTheme :=
          if (lookupField "theme" fields).truthy then some (lookupField "theme" fields).text
          else p.storedTheme
        themeToggle :=
          if (lookupField "theme" fields).truthy then themeGlyph (lookupField "theme" fields)
          else p.themeToggle
        ipAddress :=
          if (lookupField "ip" fields).truthy then "IP: " ++ (lookupField "ip" fields).text
          else p.ipAddress } := by
  have hs := h "ssid" (by simp [configKeys])
  have ha := h "router_addr" (by simp [configKeys])
  have hu := h "router_user" (by simp [configKeys])
  have hx := h "max_mbps" (by simp [configKeys])
  have hn := h "min_mbps" (by simp [configKeys])
  have hb := h "backlight" (by simp [configKeys])
  have ht := h "theme" (by simp [configKeys])
  have hi := h "ip" (by simp [configKeys])
  unfold configLoaded
  rw [configSsid_obj p fields hs]
  rw [Run.done_andThen]
  rw [configRouterAddr_obj _ fields ha]
  rw [Run.done_andThen]
  rw [configRouterUser_obj _ fields hu]
  rw [Run.done_andThen]
  rw [configInterfaces_obj]
  rw [Run.done_andThen]
  rw [configMaxMbps_obj _ fields hx]
  rw [Run.done_andThen]
  rw [configMinMbps_obj _ fields hn]
  rw [Run.done_andThen]
  rw [configBacklight_obj _ fields hb]
  rw [Run.done_andThen]
  rw [configTheme_obj _ fields ht]
  rw [Run.done_andThen]
  rw [configIp_obj _ fields hi]

end ConfigSteps

/-- C1 (as amended): for every page and every response object of `/api/config`
whose fields have a string conversion, the success handler runs to its end, and
(a) `ssid`, `theme` and `ip` update their control to the response's value when
the value is truthy, and leave it as it was when the value is falsy (such as the
empty string) or the key is absent;
(b) `router_addr` and `router_user`, when truthy, set their text field to the
value's string without its line breaks, and leave it as it was when falsy or
absent;
(c) `max_mbps` and `min_mbps`, when the key is present (value not `undefined`),
set their number field to the value's string if that is a valid floating-point
number and to the empty string otherwise, and leave it as it was when absent;
(d) `backlight`, when the key is present, sets the displayed percentage to the
value's text and the slider to what the range 0..100 makes of the value's string
(kept when it is a whole number in the range, 0 below it, 100 above it, the
nearest whole number for a fraction, 50 for text that is not a number), and
leaves both as they were when absent. -/
theorem configLoaded_updates_controls (p : Page) (fields : List (String × JSValue))
    (h : ∀ k ∈ configKeys, (lookupField k fields).hasText = true) :
    ∃ q : Page, configLoaded p (.obj fields) = .done q ∧
      (q.ssid = if (lookupField "ssid" fields).truthy then
          p.ssid ++ [⟨(lookupField "ssid" fields).text,
            .text ((lookupField "ssid" fields).text ++ " (current)"), true⟩]
        else p.ssid) ∧
      (q.router_addr = if (lookupField "router_addr" fields).truthy then
          sanitizeText (lookupField "router_addr" fields).asInputValue else p.router_addr) ∧
      (q.router_user = if (lookupField "router_user" fields).truthy then
          sanitizeText (lookupField "router_user" fields).asInputValue else p.router_user) ∧
      (q.max_mbps = if (lookupField "max_mbps" fields).isDefined then
          sanitizeNumber (lookupField "max_mbps" fields).asInputValue else p.max_mbps) ∧
      (q.min_mbps = if (lookupField "min_mbps" fields).isDefined then
          sanitizeNumber (lookupField "min_mbps" fields).asInputValue else p.min_mbps) ∧
      (q.backlightSlider = if (lookupField "backlight" fields).isDefined then
          sanitizeSlider (lookupField "backlight" fields).asInputValue else p.backlightSlider) ∧
      (q.backlightValue = if (lookupField "backlight" fields).isDefined then
          (lookupField "backlight" fields).asTextContent else p.backlightValue) ∧
      (q.currentTheme = if (lookupField "theme" fields).truthy then
          lookupField "theme" fields else p.currentTheme) ∧
      (q.dataTheme = if (lookupField "theme" fields).truthy then
          (lookupField "theme" fields).text else p.dataTheme) ∧
      (q.storedTheme = if (lookupField "theme" fields).truthy then
          some (lookupField "theme" fields).text else p.storedTheme) ∧
      (q.ipAddress = if (lookupField "ip" fields).truthy then
          "IP: " ++ (lookupField "ip" fields).text else p.ipAddress) ∧
      (hasField "ssid" fields = false → q.ssid = p.ssid) ∧
      (hasField "router_addr" fields = false → q.router_addr = p.router_addr) ∧
      (hasField "router_user" fields = false → q.router_user = p.router_user) ∧
      (hasField "max_mbps" fields = false → q.max_mbps = p.max_mbps) ∧
      (hasField "min_mbps" fields = false → q.min_mbps = p.min_mbps) ∧
      (hasField "backlight" fields = false →
        q.backlightSlider = p.backlightSlider ∧ q.backlightValue = p.backlightValue) ∧
      (hasField "theme" fields = false →
        q.currentTheme = p.currentTheme ∧ q.dataTheme = p.dataTheme ∧
        q.storedTheme = p.storedTheme) ∧
      (hasField "ip" fields = false → q.ipAddress = p.ipAddress) ∧
      (∀ s : String, (∀ c ∈ s.toList, c ≠ '\n' ∧ c ≠ '\r') → sanitizeText s = s) ∧
      (∀ s : String, sanitizeNumber s = if isValidFloat s then s else "") := by
  refine ⟨_, configLoaded_obj p fields h, rfl, rfl, rfl, rfl, rfl, rfl, rfl, rfl, rfl, rfl, rfl,
    ?_, ?_, ?_, ?_, ?_, ?_, ?_, ?_, sanitizeText_of_no_line_break, fun s => rfl⟩ <;> intro ha <;>
    simp [lookupField_of_not_hasField _ _ ha, truthy, isDefined]

/-- The amended C1 at a response with a network name, an empty router address,
a lower graph bound of 10, an upper bound that is not a number and a backlight of
150, on a page where the user already typed a router address. -/
theorem configLoaded_updates_controls_witness :
    (∀ k ∈ configKeys, (lookupField k
        [("ssid", .str "HomeNet"), ("router_addr", .str ""), ("min_mbps", .num 10),
         ("max_mbps", .str "fast"), ("backlight", .num 150)]).hasText = true) ∧
    (configLoaded { markupPage none with router_addr := "http://192.168.88.1" }
        (.obj [("ssid", .str "HomeNet"), ("router_addr", .str ""), ("min_mbps", .num 10),
          ("max_mbps", .str "fast"), ("backlight", .num 150)])).page.min_mbps = "10" ∧
    (configLoaded { markupPage none with router_addr := "http://192.168.88.1" }
        (.obj [("ssid", .str "HomeNet"), ("router_addr", .str ""), ("min_mbps", .num 10),
          ("max_mbps", .str "fast"), ("backlight", .num 150)])).page.max_mbps = "" ∧
    (configLoaded { markupPage none with router_addr := "http://192.168.88.1" }
        (.obj [("ssid", .str "HomeNet"), ("router_addr", .str ""), ("min_mbps", .num 10),
          ("max_mbps", .str "fast"), ("backlight", .num 150)])).page.backlightSlider = "100" ∧
    (configLoaded { markupPage none with router_addr := "http://192.168.88.1" }
        (.obj [("ssid", .str "HomeNet"), ("router_addr", .str ""), ("min_mbps", .num 10),
          ("max_mbps", .str "fast"), ("backlight", .num 150)])).page.backlightValue = "150" ∧
    (configLoaded { markupPage none with router_addr := "http://192.168.88.1" }
        (.obj [("ssid", .str "HomeNet"), ("router_addr", .str ""), ("min_mbps", .num 10),
          ("max_mbps", .str "fast"), ("backlight", .num 150)])).page.router_addr
      = "http://192.168.88.1" := by
  have hk : ∀ k ∈ configKeys, (lookupField k
      [("ssid", .str "HomeNet"), ("router_addr", .str ""), ("min_mbps", .num 10),
       ("max_mbps", .str "fast"), ("backlight", .num 150)]).hasText = true := by decide
  obtain ⟨q, hq, -, haddr, -, hmax, hmin, hsl, hbv, -⟩ :=
    configLoaded_updates_controls { markupPage none with router_addr := "http://192.168.88.1" }
      [("ssid", .str "HomeNet"), ("router_addr", .str ""), ("min_mbps", .num 10),
       ("max_mbps", .str "fast"), ("backlight", .num 150)] hk
  refine ⟨hk, ?_, ?_, ?_, ?_, ?_⟩
  · rw [hq, Run.page, hmin]; decide
  · rw [hq, Run.page, hmax]; decide
  · rw [hq, Run.page, hsl]; decide
  · rw [hq, Run.page, hbv]; decide
  · rw [hq, Run.page, haddr]; decide

/-- C1 as stated fails: the response `{router_addr: ""}` has the key
`router_addr`, yet on a page whose router address field holds
`http://192.168.88.1` the handler leaves that text in place instead of the
response's empty value. -/
theorem configLoaded_present_empty_router_addr_kept :
    hasField "router_addr" [("router_addr", .str "")] = true ∧
    lookupField "router_addr" [("router_addr", .str "")] = .str "" ∧
    (configLoaded { markupPage none with router_addr := "http://192.168.88.1" }
        (.obj [("router_addr", .str "")])).page.router_addr = "http://192.168.88.1" ∧
    (configLoaded { markupPage none with router_addr := "http://192.168.88.1" }
        (.obj [("router_addr", .str "")])).page.router_addr ≠ "" := by
  refine ⟨by decide, rfl, by decide, by decide⟩

/-! ### Save forms -/

theorem alertBox_setAlertBox (p : Page) (kind : Section) (a : AlertBox) :
    (p.setAlertBox kind a).alertBox kind = a := by
  cases kind <;> rfl

theorem alertBox_saveFailed (kind : Section) (p : Page) (e : JSError) :
    (saveFailed kind p e).alertBox kind = ⟨"✗ Error: " ++ e.message, "alert show error"⟩ := by
  simp only [saveFailed, alertBox_setAlertBox]

theorem alertBox_saveSucceeded (kind : Section) (p : Page) (data : JSValue) :
    (saveSucceeded kind p data).alertBox kind = ⟨savedText kind, "alert show"⟩ := by
  simp only [saveSucceeded, alertBox_setAlertBox]

theorem alertBox_saveSubmit (kind : Section) (formData : List (String × String)) (p : Page) :
    (saveSubmit kind formData p).alertBox kind = ⟨savingText kind, "alert show"⟩ := by
  cases kind <;> rfl

theorem statusOk_iff (status : Nat) : statusOk status = true ↔ 200 ≤ status ∧ status ≤ 299 := by
  simp [statusOk]

/-- C2: for each of the three sections, every page and every response whose
status is outside 200..299, whatever the outcome of reading its body, the save
chain leaves the section's alert with the text `✗ Error: Save failed` and the
class `alert show error`; this holds in particular on the page the submit handler
left, whose alert held the in-progress message. -/
theorem saveSettled_non2xx_alert (kind : Section) (p : Page) (status : Nat)
    (json : Except JSError JSValue) (h : ¬ (200 ≤ status ∧ status ≤ 299)) :
    (saveSettled kind p (.response status json)).alertBox kind
        = ⟨"✗ Error: Save failed", "alert show error"⟩ ∧
    ∀ formData : List (String × String),
      (saveSubmit kind formData p).alertBox kind = ⟨savingText kind, "alert show"⟩ ∧
      (saveSettled kind (saveSubmit kind formData p) (.response status json)).alertBox kind
        = ⟨"✗ Error: Save failed", "alert show error"⟩ := by
  have hok : statusOk status = false := by
    cases hs : statusOk status with
    | false => rfl
    | true => exact absurd ((statusOk_iff status).mp hs) h
  have key : ∀ q : Page, (saveSettled kind q (.response status json)).alertBox kind
      = ⟨"✗ Error: Save failed", "alert show error"⟩ := by
    intro q
    simp [saveSettled, hok, alertBox_saveFailed]
  exact ⟨key p, fun formData => ⟨alertBox_saveSubmit kind formData p, key _⟩⟩

/-- C2 at the router form and a 500 response with a JSON body. -/
theorem saveSettled_non2xx_alert_witness :
    ¬ (200 ≤ 500 ∧ 500 ≤ 299) ∧
    (saveSettled .router (saveSubmit .router [("router_addr", "http://192.168.88.1")]
        (markupPage none)) (.response 500 (.ok (.obj [("error", .str "flash full")])))).routerAlert
      = ⟨"✗ Error: Save failed", "alert show error"⟩ :=
  ⟨by decide,
   ((saveSettled_non2xx_alert .router (markupPage none) 500
      (.ok (.obj [("error", .str "flash full")])) (by decide)).2
      [("router_addr", "http://192.168.88.1")]).2⟩

/-- C3 (as amended): for each section, every page and every response with a
status in 200..299 whose body reads as JSON (any value), the save chain leaves the
section's alert with that section's confirmation text and the class `alert show`,
which is not the error presentation. -/
theorem saveSettled_2xx_json_alert (kind : Section) (p : Page) (status : Nat) (data : JSValue)
    (h : 200 ≤ status ∧ status ≤ 299) :
    (saveSettled kind p (.response status (.ok data))).alertBox kind
        = ⟨savedText kind, "alert show"⟩ ∧
    savedText .wifi = "✓ WiFi configuration saved! Device restarting..." ∧
    savedText .router = "✓ Router configuration saved! Device restarting..." ∧
    savedText .graph = "✓ Graph settings saved! Device restarting..." ∧
    "alert show" ≠ "alert show error" := by
  have hok : statusOk status = true := (statusOk_iff status).mpr h
  refine ⟨?_, rfl, rfl, rfl, by decide⟩
  simp [saveSettled, hok, alertBox_saveSucceeded]

/-- The amended C3 at the WiFi form and a 200 response with body `{}`. -/
theorem saveSettled_2xx_json_alert_witness :
    (200 ≤ 200 ∧ 200 ≤ 299) ∧
    (saveSettled .wifi (markupPage none) (.response 200 (.ok (.obj [])))).wifiAlert
      = ⟨"✓ WiFi configuration saved! Device restarting...", "alert show"⟩ :=
  ⟨by decide, (saveSettled_2xx_json_alert .wifi (markupPage none) 200 (.obj []) (by decide)).1⟩

/-- C3 as stated fails: a response with status 200 whose body does not read
as JSON makes `r.json()` reject, and the `catch` shows the reader's message in the
error presentation instead of the confirmation. -/
theorem saveSettled_2xx_unreadable_body_alert :
    statusOk 200 = true ∧
    (saveSettled .wifi (markupPage none)
        (.response 200 (.error ⟨"Unexpected end of JSON input"⟩))).wifiAlert
      = ⟨"✗ Error: Unexpected end of JSON input", "alert show error"⟩ ∧
    (saveSettled .wifi (markupPage none)
        (.response 200 (.error ⟨"Unexpected end of JSON input"⟩))).wifiAlert.textContent
      ≠ savedText .wifi := by
  refine ⟨by decide, by decide, by decide⟩

/-! ### Telemetry -/

theorem statsLoaded_obj (p : Page) (fields : List (String × JSValue))
    (h : ∀ k ∈ statsKeys, (lookupField k fields).hasText = true) :
    statsLoaded p (.obj fields) = .done
      { p with
        cpu := (lookupField "cpu" fields).text ++ "%"
        ram := (lookupField "ram" fields).asTextContent
        rx := (lookupField "rx" fields).text ++ " Mbps"
        tx := (lookupField "tx" fields).text ++ " Mbps"
        ipAddress :=
          if (lookupField "ip" fields).truthy then "IP: " ++ (lookupField "ip" fields).text
          else p.ipAddress } := by
  have hc := h "cpu" (by simp [statsKeys])
  have hr := h "ram" (by simp [statsKeys])
  have hx := h "rx" (by simp [statsKeys])
  have ht := h "tx" (by simp [statsKeys])
  have hi := h "ip" (by simp [statsKeys])
  simp only [statsLoaded, getProp, evalThen, plusStr_of_hasText hc, toTextContent_of_hasText hr,
    plusStr_of_hasText hx, plusStr_of_hasText ht, strPlus_of_hasText hi]
  split <;> rfl

/-- An evaluation step keeps "a throw leaves the IP badge as it was at `p0`"
when the current page has that badge and every continuation keeps it. -/
theorem evalThen_threw_ipAddress {α : Type} (p0 p : Page) (x : Except JSError α) (k : α → Run)
    (hp : p.ipAddress = p0.ipAddress)
    (hk : ∀ a q e, k a = .threw q e → q.ipAddress = p0.ipAddress) :
    ∀ q e, evalThen p x k = .threw q e → q.ipAddress = p0.ipAddress := by
  intro q e h
  cases x with
  | ok a => exact hk a q e h
  | error err =>
    simp only [evalThen] at h
    injection h with h1 h2
    subst h1
    exact hp

theorem statsLoaded_threw_ipAddress (p q : Page) (data : JSValue) (e : JSError)
    (h : statsLoaded p data = .threw q e) : q.ipAddress = p.ipAddress := by
  revert q e
  unfold statsLoaded
  refine evalThen_threw_ipAddress p _ _ _ rfl fun cpu => ?_
  refine evalThen_threw_ipAddress p _ _ _ rfl fun cpuText => ?_
  refine evalThen_threw_ipAddress p _ _ _ rfl fun ram => ?_
  refine evalThen_threw_ipAddress p _ _ _ rfl fun ramText => ?_
  refine evalThen_threw_ipAddress p _ _ _ rfl fun rx => ?_
  refine evalThen_threw_ipAddress p _ _ _ rfl fun rxText => ?_
  refine evalThen_threw_ipAddress p _ _ _ rfl fun tx => ?_
  refine evalThen_threw_ipAddress p _ _ _ rfl fun txText => ?_
  refine evalThen_threw_ipAddress p _ _ _ rfl fun ip => ?_
  split
  · refine evalThen_threw_ipAddress p _ _ _ rfl fun badge => ?_
    intro q e h
    exact absurd h (by simp)
  · intro q e h
    exact absurd h (by simp)

theorem statsFailed_fields (p : Page) (e : JSError) :
    (statsFailed p e).cpu = "N/A" ∧ (statsFailed p e).ram = "N/A" ∧
    (statsFailed p e).rx = "N/A" ∧ (statsFailed p e).tx = "N/A" ∧
    (statsFailed p e).ipAddress = p.ipAddress :=
  ⟨rfl, rfl, rfl, rfl, rfl⟩

/-- On a sample object the success continuation of `updateStats` runs to its
end exactly when the five fields it converts have a string conversion. -/
theorem statsFails_obj_iff (p : Page) (status : Nat) (fields : List (String × JSValue)) :
    statsFails p (.response status (.ok (.obj fields))) = false ↔
      ∀ k ∈ statsKeys, (lookupField k fields).hasText = true := by
  constructor
  · intro hf
    have key : ∀ k ∈ statsKeys, (lookupField k fields).hasText ≠ false := by
      intro k hk hno
      have habs : statsFails p (.response status (.ok (.obj fields))) = true := by
        simp only [statsKeys, List.mem_cons, List.mem_singleton, List.not_mem_nil,
          or_false] at hk
        cases hc : (lookupField "cpu" fields).hasText with
        | false =>
          simp [statsFails, statsLoaded, getProp, evalThen, plusStr_of_not_hasText hc]
        | true =>
          cases hr : (lookupField "ram" fields).hasText with
          | false =>
            simp [statsFails, statsLoaded, getProp, evalThen, plusStr_of_hasText hc,
              toTextContent_of_not_hasText hr]
          | true =>
            cases hx : (lookupField "rx" fields).hasText with
            | false =>
              simp [statsFails, statsLoaded, getProp, evalThen, plusStr_of_hasText hc,
                toTextContent_of_hasText hr, plusStr_of_not_hasText hx]
            | true =>
              cases ht : (lookupField "tx" fields).hasText with
              | false =>
                simp [statsFails, statsLoaded, getProp, evalThen, plusStr_of_hasText hc,
                  toTextContent_of_hasText hr, plusStr_of_hasText hx,
                  plusStr_of_not_hasText ht]
              | true =>
                cases hi : (lookupField "ip" fields).hasText with
                | false =>
                  simp [statsFails, statsLoaded, getProp, evalThen, plusStr_of_hasText hc,
                    toTextContent_of_hasText hr, plusStr_of_hasText hx, plusStr_of_hasText ht,
                    (isObject_of_not_hasText hi).2.1, strPlus_of_not_hasText hi]
                | true =>
                  rcases hk with rfl | rfl | rfl | rfl | rfl <;> simp_all
      rw [habs] at hf
      exact absurd hf (by decide)
    intro k hk
    cases hh : (lookupField k fields).hasText with
    | true => rfl
    | false => exact absurd hh (key k hk)
  · intro hk
    simp [statsFails, statsLoaded_obj p fields hk]

/-- C4 (as amended): for every page, (a) on the failure path of `updateStats`
(request rejected, body unreadable, or the success continuation throwing) the four
fields cpu, ram, rx, tx all end as `N/A` and the IP badge is as before; (b) on
success with a sample object (the continuation running to its end, which it does
exactly when the fields it converts have a string conversion, as every number
and string has) the four fields end as `cpu + "%"`, `ram`, `rx + " Mbps"`,
`tx + " Mbps"`, and the IP badge becomes `"IP: " + ip` when `ip` is truthy (for a
string: non-empty) and is unchanged when `ip` is falsy or absent. -/
theorem statsSettled_fields (p : Page) (r : FetchResult) :
    (statsFails p r = true →
      (statsSettled p r).cpu = "N/A" ∧ (statsSettled p r).ram = "N/A" ∧
      (statsSettled p r).rx = "N/A" ∧ (statsSettled p r).tx = "N/A" ∧
      (statsSettled p r).ipAddress = p.ipAddress) ∧
    (∀ (status : Nat) (fields : List (String × JSValue)),
      r = .response status (.ok (.obj fields)) →
      (statsFails p r = false ↔ ∀ k ∈ statsKeys, (lookupField k fields).hasText = true) ∧
      (statsFails p r = false →
        (statsSettled p r).cpu = (lookupField "cpu" fields).text ++ "%" ∧
        (statsSettled p r).ram = (lookupField "ram" fields).asTextContent ∧
        (statsSettled p r).rx = (lookupField "rx" fields).text ++ " Mbps" ∧
        (statsSettled p r).tx = (lookupField "tx" fields).text ++ " Mbps" ∧
        (statsSettled p r).ipAddress =
          (if (lookupField "ip" fields).truthy then "IP: " ++ (lookupField "ip" fields).text
           else p.ipAddress) ∧
        (hasField "ip" fields = false → (statsSettled p r).ipAddress = p.ipAddress))) := by
  constructor
  · intro hf
    cases r with
    | rejected e => exact statsFailed_fields p e
    | response status json =>
      cases json with
      | error e => exact statsFailed_fields p e
      | ok data =>
        simp only [statsFails] at hf
        simp only [statsSettled, jsonChain]
        cases hrun : statsLoaded p data with
        | done q => simp [hrun] at hf
        | threw q e =>
          have hq := statsLoaded_threw_ipAddress p q data e hrun
          obtain ⟨h1, h2, h3, h4, h5⟩ := statsFailed_fields q e
          exact ⟨h1, h2, h3, h4, h5.trans hq⟩
  · intro status fields hr
    subst hr
    refine ⟨statsFails_obj_iff p status fields, fun hok => ?_⟩
    have hk := (statsFails_obj_iff p status fields).mp hok
    have hrun := statsLoaded_obj p fields hk
    refine ⟨?_, ?_, ?_, ?_, ?_, ?_⟩
    · simp only [statsSettled, jsonChain, hrun]
    · simp only [statsSettled, jsonChain, hrun]
    · simp only [statsSettled, jsonChain, hrun]
    · simp only [statsSettled, jsonChain, hrun]
    · simp only [statsSettled, jsonChain, hrun]
    · intro ha
      simp [statsSettled, jsonChain, hrun, lookupField_of_not_hasField _ _ ha, truthy]

set_option maxRecDepth 4000 in
/-- The amended C4 on the markup page: a rejected request; the sample
`{cpu: 12, ram: "45%", rx: 1.5, tx: 0.25, ip: "192.168.88.20"}` with fractional
readings; and a sample whose cpu is 10^21, which prints in exponent form. -/
theorem statsSettled_fields_witness :
    statsFails (markupPage none) (.rejected ⟨"Failed to fetch"⟩) = true ∧
    (statsSettled (markupPage none) (.rejected ⟨"Failed to fetch"⟩)).cpu = "N/A" ∧
    (statsSettled (markupPage none) (.rejected ⟨"Failed to fetch"⟩)).ipAddress
      = "IP: Loading..." ∧
    (∀ k ∈ statsKeys, (lookupField k [("cpu", .num 12), ("ram", .str "45%"),
      ("rx", .num ⟨false, 15, -1⟩), ("tx", .num ⟨false, 25, -2⟩),
      ("ip", .str "192.168.88.20")]).hasText = true) ∧
    (statsSettled (markupPage none) (.response 200 (.ok (.obj [("cpu", .num 12),
      ("ram", .str "45%"), ("rx", .num ⟨false, 15, -1⟩), ("tx", .num ⟨false, 25, -2⟩),
      ("ip", .str "192.168.88.20")])))).cpu = "12%" ∧
    (statsSettled (markupPage none) (.response 200 (.ok (.obj [("cpu", .num 12),
      ("ram", .str "45%"), ("rx", .num ⟨false, 15, -1⟩), ("tx", .num ⟨false, 25, -2⟩),
      ("ip", .str "192.168.88.20")])))).ram = "45%" ∧
    (statsSettled (markupPage none) (.response 200 (.ok (.obj [("cpu", .num 12),
      ("ram", .str "45%"), ("rx", .num ⟨false, 15, -1⟩), ("tx", .num ⟨false, 25, -2⟩),
      ("ip", .str "192.168.88.20")])))).rx = "1.5 Mbps" ∧
    (statsSettled (markupPage none) (.response 200 (.ok (.obj [("cpu", .num 12),
      ("ram", .str "45%"), ("rx", .num ⟨false, 15, -1⟩), ("tx", .num ⟨false, 25, -2⟩),
      ("ip", .str "192.168.88.20")])))).tx = "0.25 Mbps" ∧
    (statsSettled (markupPage none) (.response 200 (.ok (.obj [("cpu", .num 12),
      ("ram", .str "45%"), ("rx", .num ⟨false, 15, -1⟩), ("tx", .num ⟨false, 25, -2⟩),
      ("ip", .str "192.168.88.20")])))).ipAddress = "IP: 192.168.88.20" ∧
    (statsSettled (markupPage none) (.response 200 (.ok (.obj [("cpu", .num ⟨false, 1, 21⟩),
      ("ram", .num 7), ("rx", .num 0), ("tx", .num 0)])))).cpu = "1e+21%" := by
  have hf : statsFails (markupPage none) (.rejected ⟨"Failed to fetch"⟩) = true := rfl
  have hk : ∀ k ∈ statsKeys, (lookupField k [("cpu", .num 12), ("ram", .str "45%"),
      ("rx", .num ⟨false, 15, -1⟩), ("tx", .num ⟨false, 25, -2⟩),
      ("ip", .str "192.168.88.20")]).hasText = true := by decide
  have hk2 : ∀ k ∈ statsKeys, (lookupField k [("cpu", .num ⟨false, 1, 21⟩),
      ("ram", .num 7), ("rx", .num 0), ("tx", .num 0)]).hasText = true := by decide
  have h1 := (statsSettled_fields (markupPage none) (.rejected ⟨"Failed to fetch"⟩)).1 hf
  have h2 := (statsSettled_fields (markupPage none) (.response 200 (.ok (.obj [("cpu", .num 12),
      ("ram", .str "45%"), ("rx", .num ⟨false, 15, -1⟩), ("tx", .num ⟨false, 25, -2⟩),
      ("ip", .str "192.168.88.20")])))).2 200 _ rfl
  have h3 := (statsSettled_fields (markupPage none) (.response 200 (.ok (.obj
      [("cpu", .num ⟨false, 1, 21⟩), ("ram", .num 7), ("rx", .num 0), ("tx", .num 0)])))).2
      200 _ rfl
  have v2 := h2.2 (h2.1.mpr hk)
  have v3 := h3.2 (h3.1.mpr hk2)
  refine ⟨hf, h1.1, h1.2.2.2.2, hk, ?_, ?_, ?_, ?_, ?_, ?_⟩
  · rw [v2.1]; decide
  · rw [v2.2.1]; decide
  · rw [v2.2.2.1]; decide
  · rw [v2.2.2.2.1]; decide
  · rw [v2.2.2.2.2.1]; decide
  · rw [v3.1]; decide

/-- C4 as stated fails: the sample
`{cpu: 12, ram: "45%", rx: 3, tx: 1, ip: ""}` has the key `ip`, and the handler
succeeds on it, yet the IP badge keeps its earlier text `IP: Loading...` instead of
becoming `"IP: " + ip`. -/
theorem statsSettled_present_empty_ip_kept :
    hasField "ip" [("cpu", .num 12), ("ram", .str "45%"), ("rx", .num 3), ("tx", .num 1),
      ("ip", .str "")] = true ∧
    statsFails (markupPage none) (.response 200 (.ok (.obj [("cpu", .num 12),
      ("ram", .str "45%"), ("rx", .num 3), ("tx", .num 1), ("ip", .str "")]))) = false ∧
    (statsSettled (markupPage none) (.response 200 (.ok (.obj [("cpu", .num 12),
      ("ram", .str "45%"), ("rx", .num 3), ("tx", .num 1), ("ip", .str "")])))).ipAddress
      = "IP: Loading..." ∧
    (statsSettled (markupPage none) (.response 200 (.ok (.obj [("cpu", .num 12),
      ("ram", .str "45%"), ("rx", .num 3), ("tx", .num 1), ("ip", .str "")])))).ipAddress
      ≠ "IP: " ++ "" := by
  refine ⟨by decide, by decide, by decide, by decide⟩

/-! ### WiFi scan -/

theorem getProp_of_not_isNullish {v : JSValue} (h : v.isNullish = false) (key : String) :
    v.getProp key = .ok (v.field key) := by
  cases v <;> simp_all [isNullish, JSValue.field, getProp] <;> split <;> rfl

theorem hasItems_arr_cons (x : JSValue) (xs : List JSValue) :
    hasItems (.arr (x :: xs)) = .ok true := by
  simp [hasItems, truthy, getProp, gtZero, Except.bind, positive_ofNat]

theorem hasItems_arr_nil : hasItems (.arr []) = .ok false := by
  simp only [hasItems, truthy, getProp, gtZero, Except.bind, List.length_nil]
  rfl

theorem appendNetwork_formattable (p : Page) (net : JSValue)
    (h : formattableNetwork net = true) :
    appendNetwork p net = .done { p with ssid := p.ssid ++ [networkOption net] } := by
  simp only [formattableNetwork, Bool.and_eq_true, Bool.not_eq_true'] at h
  obtain ⟨⟨⟨hn, hs⟩, ht⟩, hr⟩ := h
  simp only [appendNetwork, getProp_of_not_isNullish hn, evalThen, toDOMString_of_hasText hs,
    toStrE_of_hasText hs, toStrE_of_hasText ht, toStrE_of_hasText hr, networkOption,
    networkLabel]

theorem forEachRun_appendNetwork (nets : List JSValue) (p : Page)
    (h : ∀ net ∈ nets, formattableNetwork net = true) :
    forEachRun appendNetwork nets p = .done { p with ssid := p.ssid ++ nets.map networkOption } := by
  induction nets generalizing p with
  | nil => simp [forEachRun]
  | cons net rest ih =>
    have hnet := h net (List.mem_cons_self _ _)
    have hrest : ∀ n ∈ rest, formattableNetwork n = true :=
      fun n hn => h n (List.mem_cons_of_mem _ hn)
    simp only [forEachRun, appendNetwork_formattable p net hnet, Run.done_andThen, ih _ hrest,
      List.map_cons, List.append_assoc, List.singleton_append]

theorem scanLoaded_arr (originalText : String) (p : Page) (data : JSValue)
    (nets : List JSValue) (hdata : data.getProp "networks" = .ok (.arr nets))
    (hne : nets ≠ []) (hfmt : ∀ net ∈ nets, formattableNetwork net = true) :
    scanLoaded originalText p data = .done
      { p with
        ssid := placeholderOption "Select a network" :: nets.map networkOption
        scanBtnHTML := originalText
        scanBtnDisabled := false } := by
  obtain ⟨x, xs, rfl⟩ := List.exists_cons_of_ne_nil hne
  simp only [scanLoaded, hdata, evalThen, hasItems_arr_cons, if_true, callForEach,
    forEachRun_appendNetwork _ _ hfmt, Run.done_andThen, List.singleton_append]

theorem scanLoaded_arr_nil (originalText : String) (p : Page) (data : JSValue)
    (hdata : data.getProp "networks" = .ok (.arr [])) :
    scanLoaded originalText p data = .done
      { p with
        ssid := [placeholderOption "No networks found"]
        scanBtnHTML := originalText
        scanBtnDisabled := false } := by
  simp only [scanLoaded, hdata, evalThen, hasItems_arr_nil, Run.done_andThen]
  rfl

/-- C5 (as amended): for every page, every captured button label and every
response whose `networks` is a list of N > 0 entries the handler can format
(entries other than `null` and `undefined` whose `ssid`, `strength` and `rssi` have
a string conversion), the scan continuation runs to its end and the network
selector then holds exactly N + 1 options: the placeholder `Select a network`
(empty value), which is kept, followed by one option per returned network in
response order, the i-th not selected, with value `ssid_i` and with the string
`ssid_i (strength_i rssi_idBm)` assigned to it as markup; whenever that string has
none of the characters `<`, `&`, NUL and carriage return, the text of the option
is exactly that string and its label is that string with ASCII whitespace
stripped and collapsed. -/
theorem scanLoaded_networks (originalText : String) (p : Page) (data : JSValue)
    (nets : List JSValue) (hdata : data.getProp "networks" = .ok (.arr nets))
    (hne : nets ≠ []) (hfmt : ∀ net ∈ nets, formattableNetwork net = true) :
    ∃ q : Page, scanLoaded originalText p data = .done q ∧
      q.ssid = placeholderOption "Select a network" :: nets.map networkOption ∧
      q.ssid.length = nets.length + 1 ∧
      placeholderOption "Select a network" = ⟨"", .text "Select a network", false⟩ ∧
      (∀ net : JSValue,
        (networkOption net).value = (net.field "ssid").text ∧
        (networkOption net).selected = false ∧
        (networkOption net).content = .markup ((net.field "ssid").text ++ " (" ++
          (net.field "strength").text ++ " " ++ (net.field "rssi").text ++ "dBm)") ∧
        (isPlainMarkup (networkLabel net) = true →
          (networkOption net).content.textContent = some ((net.field "ssid").text ++ " (" ++
            (net.field "strength").text ++ " " ++ (net.field "rssi").text ++ "dBm)") ∧
          (networkOption net).label = some (stripAndCollapse ((net.field "ssid").text ++ " (" ++
            (net.field "strength").text ++ " " ++ (net.field "rssi").text ++ "dBm)")))) :=
  ⟨_, scanLoaded_arr originalText p data nets hdata hne hfmt, rfl, by simp, rfl,
    fun net => ⟨rfl, rfl, rfl, fun hp => by
      simp only [SelectOption.label, networkOption, Content.textContent, hp, if_true,
        Option.map_some']
      exact ⟨rfl, rfl⟩⟩⟩

/-- The amended C5 at a scan that returns two networks, on the markup page:
three options, and the labels of the two networks. -/
theorem scanLoaded_networks_witness :
    (JSValue.obj [("networks", .arr [
        .obj [("ssid", .str "HomeNet"), ("strength", .str "Good"), ("rssi", .num (-52))],
        .obj [("ssid", .str " Cafe  Bar"), ("strength", .str "Weak"),
          ("rssi", .num (-81))]])]).getProp
      "networks" = .ok (.arr [
        .obj [("ssid", .str "HomeNet"), ("strength", .str "Good"), ("rssi", .num (-52))],
        .obj [("ssid", .str " Cafe  Bar"), ("strength", .str "Weak"), ("rssi", .num (-81))]]) ∧
    (∀ net ∈ [
        JSValue.obj [("ssid", .str "HomeNet"), ("strength", .str "Good"), ("rssi", .num (-52))],
        JSValue.obj [("ssid", .str " Cafe  Bar"), ("strength", .str "Weak"),
          ("rssi", .num (-81))]],
      formattableNetwork net = true) ∧
    (scanLoaded "Scan" (markupPage none) (.obj [("networks", .arr [
        .obj [("ssid", .str "HomeNet"), ("strength", .str "Good"), ("rssi", .num (-52))],
        .obj [("ssid", .str " Cafe  Bar"), ("strength", .str "Weak"),
          ("rssi", .num (-81))]])])).page.ssid
      = [⟨"", .text "Select a network", false⟩,
         ⟨"HomeNet", .markup "HomeNet (Good -52dBm)", false⟩,
         ⟨" Cafe  Bar", .markup " Cafe  Bar (Weak -81dBm)", false⟩] ∧
    ((scanLoaded "Scan" (markupPage none) (.obj [("networks", .arr [
        .obj [("ssid", .str "HomeNet"), ("strength", .str "Good"), ("rssi", .num (-52))],
        .obj [("ssid", .str " Cafe  Bar"), ("strength", .str "Weak"),
          ("rssi", .num (-81))]])])).page.ssid.map SelectOption.label)
      = [some "Select a network", some "HomeNet (Good -52dBm)",
         some "Cafe Bar (Weak -81dBm)"] ∧
    (networkOption (.obj [("ssid", .str "HomeNet"), ("strength", .str "Good"),
        ("rssi", .num (-52))])).content.textContent = some "HomeNet (Good -52dBm)" ∧
    (networkOption (.obj [("ssid", .str "HomeNet"), ("strength", .str "Good"),
        ("rssi", .num (-52))])).label = some "HomeNet (Good -52dBm)" := by
  have hfmt : ∀ net ∈ [
      JSValue.obj [("ssid", .str "HomeNet"), ("strength", .str "Good"), ("rssi", .num (-52))],
      JSValue.obj [("ssid", .str " Cafe  Bar"), ("strength", .str "Weak"),
        ("rssi", .num (-81))]],
      formattableNetwork net = true := by
    intro net hnet
    simp only [List.mem_cons, List.mem_singleton, List.not_mem_nil, or_false] at hnet
    rcases hnet with rfl | rfl <;> decide
  obtain ⟨q, hq, hs, -, -, hopt⟩ := scanLoaded_networks "Scan" (markupPage none)
    (.obj [("networks", .arr [
        .obj [("ssid", .str "HomeNet"), ("strength", .str "Good"), ("rssi", .num (-52))],
        .obj [("ssid", .str " Cafe  Bar"), ("strength", .str "Weak"), ("rssi", .num (-81))]])])
    _ rfl (by simp) hfmt
  have hl := (hopt (.obj [("ssid", .str "HomeNet"), ("strength", .str "Good"),
    ("rssi", .num (-52))])).2.2.2 (by decide)
  refine ⟨rfl, hfmt, ?_, ?_, ?_, ?_⟩
  · rw [hq, Run.page, hs]; decide
  · rw [hq, Run.page, hs]; decide
  · rw [hl.1]; decide
  · rw [hl.2]; decide

/-- C5 as stated fails: after a scan that returns one network the selector
holds two options, the kept placeholder `Select a network` and the network, not
exactly one. -/
theorem scanLoaded_one_network_two_options :
    (scanLoaded "Scan" (markupPage none) (.obj [("networks", .arr [
        .obj [("ssid", .str "HomeNet"), ("strength", .str "Good"), ("rssi", .num (-52))]])])
      ).page.ssid
      = [⟨"", .text "Select a network", false⟩,
         ⟨"HomeNet", .markup "HomeNet (Good -52dBm)", false⟩] ∧
    (scanLoaded "Scan" (markupPage none) (.obj [("networks", .arr [
        .obj [("ssid", .str "HomeNet"), ("strength", .str "Good"), ("rssi", .num (-52))]])])
      ).page.ssid.length ≠ 1 := by
  refine ⟨by decide, by decide⟩

/-- C6: for every page (whatever its network selector held), every captured
button label and every response whose `networks` is the empty list, the scan
continuation runs to its end and the network selector then holds exactly one
option, with empty value and the text `No networks found`. -/
theorem scanLoaded_no_networks (originalText : String) (p : Page) (data : JSValue)
    (hdata : data.getProp "networks" = .ok (.arr [])) :
    ∃ q : Page, scanLoaded originalText p data = .done q ∧
      q.ssid = [⟨"", .text "No networks found", false⟩] ∧ q.ssid.length = 1 :=
  ⟨_, scanLoaded_arr_nil originalText p data hdata, rfl, rfl⟩

/-- C6 on a page whose selector holds the placeholder, the `(current)` option
and an option of an earlier scan. -/
theorem scanLoaded_no_networks_witness :
    (JSValue.obj [("networks", .arr [])]).getProp "networks" = .ok (.arr []) ∧
    (scanLoaded "Scan"
        { markupPage none with ssid := [
            ⟨"", .text "Select a network", false⟩,
            ⟨"Cafe", .markup "Cafe (Weak -81dBm)", false⟩,
            ⟨"HomeNet", .text "HomeNet (current)", true⟩] }
        (.obj [("networks", .arr [])])).page.ssid
      = [⟨"", .text "No networks found", false⟩] := by
  obtain ⟨q, hq, hs, -⟩ := scanLoaded_no_networks "Scan"
    { markupPage none with ssid := [
        ⟨"", .text "Select a network", false⟩,
        ⟨"Cafe", .markup "Cafe (Weak -81dBm)", false⟩,
        ⟨"HomeNet", .text "HomeNet (current)", true⟩] }
    (.obj [("networks", .arr [])]) rfl
  exact ⟨rfl, by rw [hq, Run.page, hs]⟩

/-! ### Backlight and theme -/

theorem parseInt_toString_le_100 :
    ∀ v : Nat, v ≤ 100 → JSValue.parseInt (toString v) = some (v : Int) := by
  decide

theorem toStr_str_plus (s suffix : String) :
    (JSValue.str s).plusStr suffix = .ok (s ++ suffix) := rfl

theorem ofInt_natCast (v : Nat) : JSNumber.ofInt (v : Int) = JSNumber.ofNat v := by
  simp [JSNumber.ofInt, JSNumber.ofNat]

/-- C7: for every page whose slider holds the numeral of a value v with
0 <= v <= 100, the input handler runs to its end and, by itself, sets the
displayed percentage to v and the slider fill to `v%` and issues exactly one
request: method `POST`, path `/api/backlight`, content type `application/json`,
body `{brightness: v}` with v a number; nothing else on the page changes, and the
failure continuation of that request only writes to the error console, so no
view state is rolled back. -/
theorem backlightInput_effect (p : Page) (v : Nat) (hv : v ≤ 100)
    (hs : p.backlightSlider = toString v) :
    backlightInput p = .done
      { p with
        backlightValue := toString v
        sliderPercent := some (toString v ++ "%")
        requests := p.requests ++
          [{ method := "POST", url := "/api/backlight", contentType := some "application/json",
             body := some (.obj [("brightness", .num (JSNumber.ofNat v))]),
             cont := .backlightUpdate }] } ∧
    ∀ (q : Page) (e : JSError),
      backlightUpdateFailed q e = { q with console := q.console ++ ["Backlight update failed:"] } := by
  refine ⟨?_, fun q e => rfl⟩
  simp only [backlightInput, updateSliderBackground, truthy, Bool.false_eq_true, if_false,
    toStr_str_plus, evalThen, Run.done_andThen, hs, parseInt_toString_le_100 v hv, numberOrNull,
    Page.fetch, postRequest, ofInt_natCast]

/-- C7 at the slider value 42 on the markup page: the one request issued
carries the body `{brightness: 42}`. -/
theorem backlightInput_effect_witness :
    (42 : Nat) ≤ 100 ∧
    ({ markupPage none with backlightSlider := "42" } : Page).backlightSlider = toString 42 ∧
    (backlightInput { markupPage none with backlightSlider := "42" }).page.backlightValue = "42" ∧
    (backlightInput { markupPage none with backlightSlider := "42" }).page.sliderPercent
      = some "42%" ∧
    (backlightInput { markupPage none with backlightSlider := "42" }).page.requests
      = [{ method := "POST", url := "/api/backlight", contentType := some "application/json",
           body := some (.obj [("brightness", .num 42)]), cont := .backlightUpdate }] := by
  have h := (backlightInput_effect { markupPage none with backlightSlider := "42" } 42
    (by decide) (by decide)).1
  refine ⟨by decide, by decide, ?_, ?_, ?_⟩
  · rw [h]; decide
  · rw [h]; decide
  · rw [h]; rfl

/-- C8: for every page whose current theme t is `light` or `dark`, one click
on the toggle sets the current theme, the cached theme and the `data-theme`
attribute to the other of the two values and issues exactly one request: method
`POST`, path `/api/theme`, content type `application/json`, body
`{theme: new value}`; the failure continuation of that request only writes to
the error console, so the local preference is not rolled back. -/
theorem themeToggleClick_flips (p : Page) (t : String) (ht : t = "light" ∨ t = "dark")
    (hp : p.currentTheme = .str t) :
    themeToggleClick p =
      { p with
        currentTheme := .str (if t = "light" then "dark" else "light")
        dataTheme := if t = "light" then "dark" else "light"
        storedTheme := some (if t = "light" then "dark" else "light")
        themeToggle := themeGlyph (.str (if t = "light" then "dark" else "light"))
        requests := p.requests ++
          [{ method := "POST", url := "/api/theme", contentType := some "application/json",
             body := some (.obj [("theme", .str (if t = "light" then "dark" else "light"))]),
             cont := .themeSave }] } ∧
    (if t = "light" then "dark" else "light") ≠ t ∧
    ((if t = "light" then "dark" else "light") = "light" ∨
      (if t = "light" then "dark" else "light") = "dark") ∧
    ∀ (q : Page) (e : JSError),
      themeSaveFailed q e = { q with console := q.console ++ ["Theme save failed:"] } := by
  rcases ht with rfl | rfl
  · refine ⟨?_, by decide, by decide, fun q e => rfl⟩
    simp [themeToggleClick, hp, strictEqStr, Page.fetch, postRequest]
  · refine ⟨?_, by decide, by decide, fun q e => rfl⟩
    simp [themeToggleClick, hp, strictEqStr, Page.fetch, postRequest]

/-- C8 on the page as loaded with a cached `dark` theme: the one request
issued carries the body `{theme: "light"}`. -/
theorem themeToggleClick_flips_witness :
    ("dark" = "light" ∨ "dark" = "dark") ∧
    (initTheme (markupPage (some "dark"))).currentTheme = .str "dark" ∧
    (themeToggleClick (initTheme (markupPage (some "dark")))).dataTheme = "light" ∧
    (themeToggleClick (initTheme (markupPage (some "dark")))).storedTheme = some "light" ∧
    (themeToggleClick (initTheme (markupPage (some "dark")))).requests
      = [{ method := "POST", url := "/api/theme", contentType := some "application/json",
           body := some (.obj [("theme", .str "light")]), cont := .themeSave }] := by
  have h := (themeToggleClick_flips (initTheme (markupPage (some "dark"))) "dark"
    (Or.inr rfl) rfl).1
  refine ⟨Or.inr rfl, rfl, ?_, ?_, ?_⟩
  · rw [h]; decide
  · rw [h]; decide
  · rw [h]; rfl

/-! ### Configuration handler: network name, theme, backlight -/

theorem toPrimitive_boolToNum_of_hasText {v : JSValue} (h : v.hasText = true) :
    ∃ w, toPrimitive (boolToNum v) = .ok w := by
  cases v with
  | bool b => cases b <;> exact ⟨_, rfl⟩
  | arr items =>
    refine ⟨.str (JSValue.arr items).text, ?_⟩
    simp only [boolToNum, toPrimitive, isObject, if_true, toStrE_of_hasText h, Except.map]
  | obj fields =>
    refine ⟨.str (JSValue.obj fields).text, ?_⟩
    simp only [boolToNum, toPrimitive, isObject, if_true, toStrE_of_hasText h, Except.map]
  | undefined => exact ⟨_, rfl⟩
  | null => exact ⟨_, rfl⟩
  | num n => exact ⟨_, rfl⟩
  | str s => exact ⟨_, rfl⟩

theorem looseEq_of_hasText {x y : JSValue} (hx : x.hasText = true) (hy : y.hasText = true) :
    looseEq x y = .ok (x.looselyEquals y) := by
  have key : ∃ b, looseEq x y = .ok b := by
    obtain ⟨px, hpx⟩ := toPrimitive_boolToNum_of_hasText hx
    obtain ⟨py, hpy⟩ := toPrimitive_boolToNum_of_hasText hy
    unfold looseEq
    split
    · exact ⟨_, rfl⟩
    · split
      · exact ⟨_, rfl⟩
      · split
        · exact ⟨_, rfl⟩
        · split
          · exact ⟨_, rfl⟩
          · simp only [hpx, hpy]
            exact ⟨_, rfl⟩
  obtain ⟨b, hb⟩ := key
  simp [JSValue.looselyEquals, hb]

theorem isSelectedInterface_of_hasText {sel id : JSValue} (hs : sel.hasText = true)
    (hi : id.hasText = true) :
    isSelectedInterface sel id = .ok (sel.truthy && id.looselyEquals sel) := by
  unfold isSelectedInterface
  cases ht : sel.truthy
  · simp
  · simp [looseEq_of_hasText hi hs]

theorem appendInterface_formattable (sel : JSValue) (p : Page) (iface : JSValue)
    (hs : sel.hasText = true) (h : formattableInterface iface = true) :
    appendInterface sel p iface
      = .done { p with interface_id := p.interface_id ++ [interfaceOption sel iface] } := by
  simp only [formattableInterface, Bool.and_eq_true, Bool.not_eq_true'] at h
  obtain ⟨⟨hn, hi⟩, hm⟩ := h
  simp only [appendInterface, getProp_of_not_isNullish hn, evalThen, toDOMString_of_hasText hi,
    toStrE_of_hasText hi, toStrE_of_hasText hm, isSelectedInterface_of_hasText hs hi,
    interfaceOption]

theorem forEachRun_appendInterface (sel : JSValue) (ifaces : List JSValue) (p : Page)
    (hs : sel.hasText = true) (h : ∀ iface ∈ ifaces, formattableInterface iface = true) :
    forEachRun (appendInterface sel) ifaces p
      = .done { p with interface_id := p.interface_id ++ ifaces.map (interfaceOption sel) } := by
  induction ifaces generalizing p with
  | nil => simp [forEachRun]
  | cons iface rest ih =>
    have hif := h iface (List.mem_cons_self _ _)
    have hrest : ∀ n ∈ rest, formattableInterface n = true :=
      fun n hn => h n (List.mem_cons_of_mem _ hn)
    simp only [forEachRun, appendInterface_formattable sel p iface hs hif, Run.done_andThen,
      ih _ hrest, List.map_cons, List.append_assoc, List.singleton_append]

theorem interfacesLoaded_arr (sel : JSValue) (p : Page) (data : JSValue)
    (ifaces : List JSValue) (hdata : data.getProp "interfaces" = .ok (.arr ifaces))
    (hs : sel.hasText = true) (h : ∀ iface ∈ ifaces, formattableInterface iface = true) :
    interfacesLoaded sel p data = .done
      { p with interface_id :=
          placeholderOption "Select interface" :: ifaces.map (interfaceOption sel) } := by
  cases ifaces with
  | nil =>
    simp only [interfacesLoaded, hdata, evalThen, hasItems_arr_nil]
    rfl
  | cons x xs =>
    simp only [interfacesLoaded, hdata, evalThen, hasItems_arr_cons, if_true, callForEach,
      forEachRun_appendInterface sel _ _ hs h, List.singleton_append]

theorem looseEq_str_num (a : String) (b : JSNumber) :
    looseEq (.str a) (.num b) = .ok ((stringToNumber a).eq b.toBinary64) := rfl

theorem appendInterface_outcome (sel iface : JSValue) :
    ∃ (opts : List SelectOption) (err : Option JSError), ∀ p : Page,
      appendInterface sel p iface
        = Run.ofOutcome err { p with interface_id := p.interface_id ++ opts } := by
  have stop : ∀ e : JSError, ∀ p : Page,
      Run.threw p e = Run.ofOutcome (some e) { p with interface_id := p.interface_id ++ [] } := by
    intro e p
    simp [Run.ofOutcome]
  unfold appendInterface
  cases iface.getProp "id" with
  | error e => exact ⟨[], some e, fun p => stop e p⟩
  | ok id =>
    simp only [evalThen]
    cases id.toDOMString with
    | error e => exact ⟨[], some e, fun p => stop e p⟩
    | ok value =>
      simp only []
      cases iface.getProp "name" with
      | error e => exact ⟨[], some e, fun p => stop e p⟩
      | ok name =>
        simp only []
        cases name.toStrE with
        | error e => exact ⟨[], some e, fun p => stop e p⟩
        | ok nameText =>
          simp only []
          cases id.toStrE with
          | error e => exact ⟨[], some e, fun p => stop e p⟩
          | ok idText =>
            simp only []
            cases isSelectedInterface sel id with
            | error e => exact ⟨[], some e, fun p => stop e p⟩
            | ok selected => exact ⟨[_], none, fun p => rfl⟩

theorem forEachRun_appendInterface_outcome (sel : JSValue) (items : List JSValue) :
    ∃ (opts : List SelectOption) (err : Option JSError), ∀ p : Page,
      forEachRun (appendInterface sel) items p
        = Run.ofOutcome err { p with interface_id := p.interface_id ++ opts } := by
  induction items with
  | nil => exact ⟨[], none, fun p => by simp [forEachRun, Run.ofOutcome]⟩
  | cons x xs ih =>
    obtain ⟨opts1, err1, h1⟩ := appendInterface_outcome sel x
    obtain ⟨opts2, err2, h2⟩ := ih
    cases err1 with
    | some e =>
      exact ⟨opts1, some e, fun p => by simp [forEachRun, h1 p, Run.ofOutcome, Run.andThen]⟩
    | none =>
      refine ⟨opts1 ++ opts2, err2, fun p => ?_⟩
      simp only [forEachRun, h1 p, Run.ofOutcome, Run.done_andThen, h2, List.append_assoc]

/-- The continuation of `loadInterfaces` writes a selector content that is a
function of the selected id and the response alone, and touches nothing else. -/
theorem interfacesLoaded_outcome (sel data : JSValue) :
    ∃ (opts : List SelectOption) (err : Option JSError), ∀ p : Page,
      interfacesLoaded sel p data = Run.ofOutcome err { p with interface_id := opts } := by
  unfold interfacesLoaded
  cases data.getProp "interfaces" with
  | error e => exact ⟨_, some e, fun p => rfl⟩
  | ok interfaces =>
    simp only [evalThen]
    cases hasItems interfaces with
    | error e => exact ⟨_, some e, fun p => rfl⟩
    | ok nonEmpty =>
      cases nonEmpty with
      | false => exact ⟨_, none, fun p => rfl⟩
      | true =>
        cases interfaces with
        | arr items =>
          obtain ⟨opts, err, h⟩ := forEachRun_appendInterface_outcome sel items
          refine ⟨[placeholderOption "Select interface"] ++ opts, err, fun p => ?_⟩
          simp only [evalThen, if_true, callForEach, h]
        | undefined => exact ⟨_, some _, fun p => rfl⟩
        | null => exact ⟨_, some _, fun p => rfl⟩
        | bool b => exact ⟨_, some _, fun p => rfl⟩
        | num n => exact ⟨_, some _, fun p => rfl⟩
        | str s => exact ⟨_, some _, fun p => rfl⟩
        | obj fields => exact ⟨_, some _, fun p => rfl⟩

theorem page_ofOutcome (err : Option JSError) (p : Page) : (Run.ofOutcome err p).page = p := by
  cases err <;> rfl

theorem interface_id_jsonChain_interfaces (sel data : JSValue) (p : Page) (status : Nat) :
    (settle p (.interfaces sel) (.response status (.ok data))).interface_id
      = (interfacesLoaded sel p data).page.interface_id := by
  simp only [settle, jsonChain]
  cases interfacesLoaded sel p data <;> rfl

/-- C11: for every selected id, every parsed response and every page,
running the success continuation of `loadInterfaces` a second time with the same
response leaves the page exactly as the first run left it, and the selector it
produces is the same from any two starting pages, so it does not depend on the
earlier selector content; the same holds for the selector after the whole
request continuation.  For a list of entries the handler can format, both runs
end normally and the selector is the placeholder `Select interface` followed by
one option per returned interface, nothing accumulated. -/
theorem interfacesLoaded_idempotent (sel data : JSValue) (p p' : Page) :
    (interfacesLoaded sel (interfacesLoaded sel p data).page data).page
      = (interfacesLoaded sel p data).page ∧
    (interfacesLoaded sel p data).page.interface_id
      = (interfacesLoaded sel p' data).page.interface_id ∧
    (∀ status : Nat,
      (settle (settle p (.interfaces sel) (.response status (.ok data))) (.interfaces sel)
          (.response status (.ok data))).interface_id
        = (settle p (.interfaces sel) (.response status (.ok data))).interface_id) ∧
    (∀ ifaces : List JSValue, data.getProp "interfaces" = .ok (.arr ifaces) →
      sel.hasText = true → (∀ iface ∈ ifaces, formattableInterface iface = true) →
      interfacesLoaded sel (interfacesLoaded sel p data).page data
        = .done (interfacesLoaded sel p data).page ∧
      (interfacesLoaded sel p data).page.interface_id
        = placeholderOption "Select interface" :: ifaces.map (interfaceOption sel) ∧
      (interfacesLoaded sel p data).page.interface_id.length = ifaces.length + 1) := by
  obtain ⟨opts, err, h⟩ := interfacesLoaded_outcome sel data
  refine ⟨?_, ?_, ?_, ?_⟩
  · rw [h p, page_ofOutcome, h, page_ofOutcome]
  · rw [h p, h p', page_ofOutcome, page_ofOutcome]
  · intro status
    rw [interface_id_jsonChain_interfaces, interface_id_jsonChain_interfaces, h p, h,
      page_ofOutcome, page_ofOutcome]
  · intro ifaces hdata hs hfmt
    have h1 := interfacesLoaded_arr sel p data ifaces hdata hs hfmt
    refine ⟨?_, ?_, ?_⟩
    · rw [h1, Run.page, interfacesLoaded_arr sel _ data ifaces hdata hs hfmt]
    · rw [h1, Run.page]
    · rw [h1, Run.page]
      simp

/-- C11 at the list `[{id: 5, name: "ether1"}, {id: 7, name: "wlan1"}]`,
selected id "5", starting from the markup page: the second run reproduces the
selector of the first. -/
theorem interfacesLoaded_idempotent_witness :
    (JSValue.obj [("interfaces", .arr [
        .obj [("id", .num 5), ("name", .str "ether1")],
        .obj [("id", .num 7), ("name", .str "wlan1")]])]).getProp "interfaces"
      = .ok (.arr [
        .obj [("id", .num 5), ("name", .str "ether1")],
        .obj [("id", .num 7), ("name", .str "wlan1")]]) ∧
    (JSValue.str "5").hasText = true ∧
    (∀ iface ∈ [
        JSValue.obj [("id", .num 5), ("name", .str "ether1")],
        JSValue.obj [("id", .num 7), ("name", .str "wlan1")]],
      formattableInterface iface = true) ∧
    (interfacesLoaded (.str "5")
        (interfacesLoaded (.str "5") (markupPage none) (.obj [("interfaces", .arr [
          .obj [("id", .num 5), ("name", .str "ether1")],
          .obj [("id", .num 7), ("name", .str "wlan1")]])])).page
        (.obj [("interfaces", .arr [
          .obj [("id", .num 5), ("name", .str "ether1")],
          .obj [("id", .num 7), ("name", .str "wlan1")]])])).page.interface_id
      = [⟨"", .text "Select interface", false⟩,
         ⟨"5", .text "ether1 (ID: 5)", true⟩,
         ⟨"7", .text "wlan1 (ID: 7)", false⟩] := by
  have hfmt : ∀ iface ∈ [
      JSValue.obj [("id", .num 5), ("name", .str "ether1")],
      JSValue.obj [("id", .num 7), ("name", .str "wlan1")]],
      formattableInterface iface = true := by
    intro iface hif
    simp only [List.mem_cons, List.mem_singleton, List.not_mem_nil, or_false] at hif
    rcases hif with rfl | rfl <;> decide
  have h := interfacesLoaded_idempotent (.str "5") (.obj [("interfaces", .arr [
        .obj [("id", .num 5), ("name", .str "ether1")],
        .obj [("id", .num 7), ("name", .str "wlan1")]])]) (markupPage none) (markupPage none)
  obtain ⟨h2, h3, -⟩ := h.2.2.2 _ rfl (by decide) hfmt
  refine ⟨rfl, by decide, hfmt, ?_⟩
  rw [h.1, h3]
  decide

/-! ### WiFi scan: the button and the alert -/

theorem scanFailed_fields (originalText : String) (p : Page) (e : JSError) :
    (scanFailed originalText p e).scanBtnDisabled = false ∧
    (scanFailed originalText p e).scanBtnHTML = originalText ∧
    (scanFailed originalText p e).dialogs
      = p.dialogs ++ ["WiFi scan failed. Please try again."] :=
  ⟨rfl, rfl, rfl⟩

end WebInterface
